import Mathlib

set_option autoImplicit false

/-!
Verification development for the conversational operational governance
pipeline of the CampusIQ repository
(`backend/app/services/conversational_ops_service.py`).

The service is shallowly embedded: Python/JSON/SQL values become `PyVal`,
database rows become association lists of column values, the SQLAlchemy
session becomes an explicit `World` state with transaction
savepoint/rollback semantics, and every fallible Python code path returns
`Except`.  Numbers are exact (`Int`, and exact decimals for Python
floats); every numeric literal in the embedded code is exactly
representable, so binary floating-point rounding is irrelevant to the
properties proved here.
-/

deriving instance DecidableEq for Except

namespace CampusOps

-- ── Character-level string helpers ─────────────────────────────
-- (The standard library string functions are defined by well-founded
-- recursion on byte positions; these structural equivalents keep every
-- computation kernel-reducible.)

/-- ASCII lower-casing of one character (Python `str.lower` on the ASCII
identifiers and names handled by the pipeline). -/
def lowerChar (c : Char) : Char :=
  if 65 ≤ c.toNat ∧ c.toNat ≤ 90 then Char.ofNat (c.toNat + 32) else c

/-- ASCII upper-casing of one character. -/
def upperChar (c : Char) : Char :=
  if 97 ≤ c.toNat ∧ c.toNat ≤ 122 then Char.ofNat (c.toNat - 32) else c

/-- Python `s.lower()` (ASCII). -/
def strLower (s : String) : String := String.mk (s.data.map lowerChar)

/-- Python `s.upper()` (ASCII). -/
def strUpper (s : String) : String := String.mk (s.data.map upperChar)

def isSpaceChar (c : Char) : Bool :=
  c == ' ' || c == '\t' || c == '\n' || c == '\r'

/-- Python `s.strip()`. -/
def strTrim (s : String) : String :=
  String.mk (((s.data.dropWhile isSpaceChar).reverse.dropWhile isSpaceChar).reverse)

/-- Substring containment over character lists. -/
def containsAux : List Char → List Char → Bool
  | [], pat => pat.isEmpty
  | c :: rest, pat => pat.isPrefixOf (c :: rest) || containsAux rest pat

/-- Substring test (SQL `LIKE '%pat%'`; the empty pattern matches
everything).  Wildcards inside the pattern are outside the model. -/
def containsSub (s pat : String) : Bool := containsAux s.data pat.data

/-- Index of the last occurrence of a pattern in a character list. -/
def lastOccIdx : List Char → List Char → Option Nat
  | [], pat => if pat.isEmpty then some 0 else none
  | c :: rest, pat =>
      match lastOccIdx rest pat with
      | some j => some (j + 1)
      | none => if pat.isPrefixOf (c :: rest) then some 0 else none

/-- Lexicographic comparison of strings by character code (SQL string
ordering for the ASCII data handled here). -/
def strLtChars : List Char → List Char → Bool
  | [], [] => false
  | [], _ :: _ => true
  | _ :: _, [] => false
  | a :: as1, b :: bs1 =>
      if a.toNat < b.toNat then true
      else if b.toNat < a.toNat then false
      else strLtChars as1 bs1

def strLtB (a b : String) : Bool := strLtChars a.data b.data

/-- Replace underscores by spaces (`entity.replace("_", " ")`). -/
def replaceUnderscores (s : String) : String :=
  String.mk (s.data.map (fun c => if c == '_' then ' ' else c))

-- ── Value universe ─────────────────────────────────────────────

/-- An exact decimal: the value `mant / 10 ^ exp`.  This represents the
Python floats flowing through the pipeline (every float literal the
service manipulates, and every string it parses, is a finite decimal that
IEEE-754 handling leaves observationally exact for the comparisons and
interpolations modelled here). -/
structure PFloat where
  mant : Int
  exp : Nat
deriving DecidableEq, Repr

/-- Value comparison of two decimals by cross-multiplication. -/
def PFloat.ltB (a b : PFloat) : Bool :=
  a.mant * (10 : Int) ^ b.exp < b.mant * (10 : Int) ^ a.exp

/-- Value universe for the Python/JSON/SQL data flowing through the
pipeline: Python ints, floats (as exact decimals), strings, booleans and
`None`. -/
inductive PyVal where
  | vint (n : Int)
  | vfloat (f : PFloat)
  | vstr (s : String)
  | vbool (b : Bool)
  | vnone
deriving DecidableEq, Repr

namespace PyVal

/-- Python truthiness (`bool(x)`): zero, empty string, `False` and `None`
are falsy, everything else is truthy. -/
def truthy : PyVal → Bool
  | vint n => n ≠ 0
  | vfloat f => f.mant ≠ 0
  | vstr s => s ≠ ""
  | vbool b => b
  | vnone => false

def isNumeric : PyVal → Bool
  | vint _ => true
  | vfloat _ => true
  | vbool _ => true
  | _ => false

/-- Scaled numeric value `(mantissa, decimal exponent)` of a Python
number; callers only apply this to numeric values. -/
def numPair : PyVal → Int × Nat
  | vint n => (n, 0)
  | vfloat f => (f.mant, f.exp)
  | vbool b => ((if b then 1 else 0), 0)
  | _ => (0, 0)

end PyVal

/-- Numeric `<` across Python numeric kinds, by cross-multiplication. -/
def numLtB (a b : PyVal) : Bool :=
  let p := a.numPair
  let q := b.numPair
  p.1 * (10 : Int) ^ q.2 < q.1 * (10 : Int) ^ p.2

/-- Numeric `==` across Python numeric kinds (`1 == 1.0 == True`). -/
def numEqB (a b : PyVal) : Bool :=
  let p := a.numPair
  let q := b.numPair
  p.1 * (10 : Int) ^ q.2 = q.1 * (10 : Int) ^ p.2

/-- Decimal rendering of a Python float for f-string interpolation
(`str(10.0) = "10.0"`, `str(0.5) = "0.5"`); floats outside the exact
decimal range render differently in Python and are outside the model. -/
def pyFloatRepr (f : PFloat) : String :=
  if f.exp = 0 then toString f.mant ++ ".0"
  else
    let neg := f.mant < 0
    let ds0 := toString f.mant.natAbs
    let ds := if ds0.data.length ≤ f.exp then
        String.mk (List.replicate (f.exp + 1 - ds0.data.length) '0') ++ ds0
      else ds0
    let intPart := String.mk (ds.data.take (ds.data.length - f.exp))
    let fracRaw := String.mk (ds.data.drop (ds.data.length - f.exp))
    let fracTrim := String.mk ((fracRaw.data.reverse.dropWhile (fun c => c == '0')).reverse)
    let fracPart := if fracTrim = "" then "0" else fracTrim
    (if neg then "-" else "") ++ intPart ++ "." ++ fracPart

/-- Python `str(x)` for the embedded value universe. -/
def pyStrOf : PyVal → String
  | .vint n => toString n
  | .vfloat f => pyFloatRepr f
  | .vstr s => s
  | .vbool b => if b then "True" else "False"
  | .vnone => "None"

/-- Value of a non-empty decimal digit string. -/
def digitsVal (cs : List Char) : Option Nat :=
  if cs.isEmpty then none
  else cs.foldl (fun acc c =>
    match acc with
    | none => none
    | some n => if c.isDigit then some (n * 10 + (c.toNat - 48)) else none) (some 0)

/-- Split a leading sign character off a trimmed numeric character list. -/
def splitSignChars : List Char → Bool × List Char
  | '-' :: rest => (true, rest)
  | '+' :: rest => (false, rest)
  | cs => (false, cs)

/-- Python `int(s)` on a string: optional sign and a non-empty digit run
(whitespace is stripped; underscores and other exotic accepted forms are
outside the model). -/
def pyIntOfString (s : String) : Option Int :=
  let p := splitSignChars (strTrim s).data
  match digitsVal p.2 with
  | some n => some (if p.1 then -(n : Int) else (n : Int))
  | none => none

/-- Split a character list at a separator character. -/
def splitOnChar (cs : List Char) (sep : Char) : List (List Char) :=
  cs.foldr
    (fun c acc =>
      if c == sep then [] :: acc
      else match acc with
        | g :: rest => (c :: g) :: rest
        | [] => [[c]])
    [[]]

/-- Python `float(s)` on a string: optional sign, digits with an optional
decimal point, at least one digit overall (exponents, `inf` and `nan` are
outside the model). -/
def pyFloatOfString (s : String) : Option PFloat :=
  let p := splitSignChars (strTrim s).data
  let neg := p.1
  let sgn : Int → Int := fun n => if neg then -n else n
  match splitOnChar p.2 '.' with
  | [a] =>
      match digitsVal a with
      | some n => some ⟨sgn n, 0⟩
      | none => none
  | [a, b] =>
      if a.isEmpty ∧ b.isEmpty then none
      else if (¬ a.isEmpty ∧ digitsVal a = none) ∨
              (¬ b.isEmpty ∧ digitsVal b = none) then none
      else
        let ia := (digitsVal a).getD 0
        let ib := (digitsVal b).getD 0
        some ⟨sgn ((ia : Int) * (10 : Int) ^ b.length + (ib : Int)), b.length⟩
  | _ => none

/-- Truncation of a decimal toward zero (Python `int(float)`). -/
def PFloat.truncInt (f : PFloat) : Int :=
  let q : Nat := f.mant.natAbs / (10 : Nat) ^ f.exp
  if f.mant < 0 then -(q : Int) else (q : Int)

/-- Python `int(x)`; `none` models the `ValueError` / `TypeError` raised
on unparsable input. -/
def pyToInt : PyVal → Option Int
  | .vint n => some n
  | .vfloat f => some f.truncInt
  | .vbool b => some (if b then 1 else 0)
  | .vstr s => pyIntOfString s
  | .vnone => none

/-- Python `float(x)`; `none` models the raised error. -/
def pyToFloat : PyVal → Option PFloat
  | .vint n => some ⟨n, 0⟩
  | .vfloat f => some f
  | .vbool b => some ⟨if b then 1 else 0, 0⟩
  | .vstr s => pyFloatOfString s
  | .vnone => none

/-- Python `==` between embedded values (numeric kinds compare by value,
as in `1 == 1.0 == True`). -/
def pyEq (a b : PyVal) : Bool :=
  if a.isNumeric ∧ b.isNumeric then numEqB a b
  else a == b

/-- First-match association-list lookup (Python dict access for the JSON
objects of the pipeline, whose keys are unique). -/
def lookupKey (l : List (String × PyVal)) (k : String) : Option PyVal :=
  match l with
  | [] => none
  | p :: rest => if p.1 = k then some p.2 else lookupKey rest k

/-- Keys of an association list, in order. -/
def keysOf (l : List (String × PyVal)) : List String := l.map Prod.fst

-- ── Field validation rules (FIELD_RULES) ───────────────────────

/-- The declared type of a validation rule (`rule["type"]`). -/
inductive RType where
  | rint
  | rfloat
  | rbool
  | rstr
deriving DecidableEq, Repr

/-- Python `type.__name__` for the rule types. -/
def rtypeName : RType → String
  | .rint => "int"
  | .rfloat => "float"
  | .rbool => "bool"
  | .rstr => "str"

/-- One entry of `FIELD_RULES`: a target type and optional numeric bounds,
kept as the Python literals so that interpolated error messages render
exactly (`10.0` vs `10`). -/
structure FieldRule where
  rtype : RType
  min : Option PyVal
  max : Option PyVal
deriving DecidableEq, Repr

/-- `FIELD_RULES` from the service, verbatim. -/
def FIELD_RULES : List (String × FieldRule) :=
  [ ("semester", ⟨.rint, some (.vint 1), some (.vint 8)⟩),
    ("cgpa", ⟨.rfloat, some (.vfloat ⟨0, 0⟩), some (.vfloat ⟨10, 0⟩)⟩),
    ("credits", ⟨.rint, some (.vint 1), some (.vint 6)⟩),
    ("amount", ⟨.rfloat, some (.vfloat ⟨0, 0⟩), none⟩),
    ("amount_due", ⟨.rfloat, some (.vfloat ⟨0, 0⟩), none⟩),
    ("is_present", ⟨.rbool, none, none⟩),
    ("is_paid", ⟨.rbool, none, none⟩),
    ("risk_score", ⟨.rfloat, some (.vfloat ⟨0, 0⟩), some (.vfloat ⟨1, 0⟩)⟩),
    ("confidence", ⟨.rfloat, some (.vfloat ⟨0, 0⟩), some (.vfloat ⟨1, 0⟩)⟩),
    ("gross_salary", ⟨.rfloat, some (.vfloat ⟨0, 0⟩), none⟩),
    ("deductions", ⟨.rfloat, some (.vfloat ⟨0, 0⟩), none⟩),
    ("net_salary", ⟨.rfloat, some (.vfloat ⟨0, 0⟩), none⟩),
    ("month", ⟨.rint, some (.vint 1), some (.vint 12)⟩),
    ("year", ⟨.rint, some (.vint 2000), some (.vint 2100)⟩),
    ("admission_year", ⟨.rint, some (.vint 2000), some (.vint 2100)⟩),
    ("department_id", ⟨.rint, some (.vint 1), none⟩),
    ("student_id", ⟨.rint, some (.vint 1), none⟩),
    ("course_id", ⟨.rint, some (.vint 1), none⟩),
    ("employee_id", ⟨.rstr, none, none⟩) ]

/-- Rule lookup with first-match semantics (`FIELD_RULES.get(key)`). -/
def findRule (k : String) : Option FieldRule :=
  match FIELD_RULES.find? (fun p => p.1 = k) with
  | some p => some p.2
  | none => none

/-- Type coercion `rule["type"](val)`; `Except.error` models the caught
`(ValueError, TypeError)`. -/
def coerceTo (t : RType) (v : PyVal) : Except String PyVal :=
  match t with
  | .rint =>
      match pyToInt v with
      | some n => .ok (.vint n)
      | none => .error "int"
  | .rfloat =>
      match pyToFloat v with
      | some q => .ok (.vfloat q)
      | none => .error "float"
  | .rbool => .ok (.vbool v.truthy)
  | .rstr => .ok (.vstr (pyStrOf v))

/-- Outcome of the `_validate_field_values` loop body for a single
key/value pair: `none` when the key has no rule (passes through),
`some (.ok c)` for a coerced in-range value, `some (.error msg)` for a
collected error message. -/
def fieldOutcome (k : String) (v : PyVal) : Option (Except String PyVal) :=
  match findRule k with
  | none => none
  | some rule =>
      match coerceTo rule.rtype v with
      | .error tname => some (.error (k ++ ": expected " ++ tname))
      | .ok c =>
          match rule.min with
          | some m =>
              if numLtB c m then
                some (.error (k ++ ": must be >= " ++ pyStrOf m))
              else
                match rule.max with
                | some M =>
                    if numLtB M c then
                      some (.error (k ++ ": must be <= " ++ pyStrOf M))
                    else some (.ok c)
                | none => some (.ok c)
          | none =>
              match rule.max with
              | some M =>
                  if numLtB M c then
                    some (.error (k ++ ": must be <= " ++ pyStrOf M))
                  else some (.ok c)
              | none => some (.ok c)

/-- Single fold step of `_validate_field_values`: pass-through keys and
valid values extend `clean`, violations extend `errors`. -/
def validateStep (acc : List (String × PyVal) × List String) (kv : String × PyVal) :
    List (String × PyVal) × List String :=
  match fieldOutcome kv.1 kv.2 with
  | none => (acc.1 ++ [kv], acc.2)
  | some (.ok c) => (acc.1 ++ [(kv.1, c)], acc.2)
  | some (.error msg) => (acc.1, acc.2 ++ [msg])

/-- `_validate_field_values(values)`: returns `(clean_values, errors)`,
iterating every item without short-circuiting. -/
def validate_field_values (values : List (String × PyVal)) :
    List (String × PyVal) × List String :=
  values.foldl validateStep ([], [])

-- ── Entity registry, aliases and role matrix ───────────────────

/-- Keys of `ENTITY_REGISTRY` (the canonical entity names). -/
def registryEntities : List String :=
  [ "student", "faculty", "course", "department", "attendance", "prediction",
    "student_fee", "invoice", "payment", "employee", "salary_record" ]

/-- `ENTITY_ALIASES` from the service. -/
def ENTITY_ALIASES : List (String × String) :=
  [ ("students", "student"), ("facultys", "faculty"), ("teachers", "faculty"),
    ("teacher", "faculty"), ("professor", "faculty"), ("professors", "faculty"),
    ("staff", "faculty"), ("courses", "course"), ("departments", "department"),
    ("attendances", "attendance"), ("predictions", "prediction"),
    ("fees", "student_fee"), ("fee", "student_fee"), ("salary", "salary_record"),
    ("salaries", "salary_record"), ("employees", "employee"),
    ("invoices", "invoice"), ("payments", "payment") ]

/-- `_normalize_entity`: strip/lower, resolve aliases, default to
`student` for anything outside the registry. -/
def normalize_entity (raw : String) : String :=
  let e := strLower (strTrim raw)
  let e := match ENTITY_ALIASES.find? (fun p => p.1 = e) with
    | some p => p.2
    | none => e
  if e ∈ registryEntities then e else "student"

/-- `ROLE_MATRIX[role][intent]` as an allowed-entity list; `ROLE_MATRIX.get`
falls back to the student matrix for unknown roles, and `matrix.get(intent,
set())` yields the empty set for unknown intents. -/
def roleMatrixEntities (role intent : String) : List String :=
  if role = "faculty" then
    if intent = "READ" then ["student", "course", "department", "attendance", "prediction"]
    else if intent = "ANALYZE" then ["student", "course", "attendance", "prediction"]
    else if intent = "CREATE" then ["attendance", "prediction"]
    else if intent = "UPDATE" then ["student", "attendance", "course", "prediction"]
    else if intent = "DELETE" then ["attendance"]
    else []
  else if role = "admin" then
    if intent = "READ" ∨ intent = "ANALYZE" ∨ intent = "CREATE" ∨
       intent = "UPDATE" ∨ intent = "DELETE" then registryEntities
    else []
  else
    if intent = "READ" then ["student", "course", "department", "attendance", "prediction"]
    else if intent = "ANALYZE" then ["attendance", "prediction"]
    else if intent = "UPDATE" then ["student"]
    else []

/-- `_is_allowed(role, intent, entity)`. -/
def is_allowed (role intent entity : String) : Bool :=
  entity ∈ roleMatrixEntities role intent

-- ── ORM model shape (columns and relationships per entity) ─────

/-- Mapped column names (including `id`) of the SQLAlchemy model behind
each registry entity, copied from `app/models/models.py`. -/
def modelColumns : String → List String
  | "student" => ["id", "user_id", "roll_number", "department_id", "semester",
                  "section", "cgpa", "admission_year"]
  | "faculty" => ["id", "user_id", "employee_id", "department_id", "designation"]
  | "course" => ["id", "code", "name", "department_id", "semester", "credits",
                 "instructor_id"]
  | "department" => ["id", "name", "code"]
  | "attendance" => ["id", "student_id", "course_id", "date", "is_present",
                     "marked_at", "method"]
  | "prediction" => ["id", "student_id", "course_id", "predicted_grade",
                     "risk_score", "confidence", "factors", "is_estimated",
                     "data_completeness", "created_at"]
  | "student_fee" => ["id", "student_id", "fee_type", "amount", "due_date",
                      "semester", "academic_year", "is_paid", "paid_date",
                      "created_at"]
  | "invoice" => ["id", "student_id", "invoice_number", "amount_due",
                  "issued_date", "due_date", "status", "description", "created_at"]
  | "payment" => ["id", "invoice_id", "student_id", "amount", "payment_date",
                  "payment_method", "reference_number", "status", "notes",
                  "created_at"]
  | "employee" => ["id", "user_id", "employee_type", "date_of_joining",
                   "date_of_birth", "phone", "address", "city", "state",
                   "bank_account", "bank_name", "ifsc_code", "created_at"]
  | "salary_record" => ["id", "employee_id", "month", "year", "gross_salary",
                        "deductions", "net_salary", "payment_date", "status",
                        "notes", "created_at"]
  | _ => []

/-- Declared `relationship(...)` attribute names of each model, copied from
`app/models/models.py`.  Together with the columns these are the mapped
attributes a declarative constructor accepts. -/
def modelRelationshipAttrs : String → List String
  | "student" => ["user", "department", "attendances", "predictions"]
  | "faculty" => ["user", "department", "courses"]
  | "course" => ["department", "instructor", "attendances"]
  | "department" => ["courses", "students", "faculty"]
  | "attendance" => ["student", "course"]
  | "prediction" => ["student"]
  | "student_fee" => ["student"]
  | "invoice" => ["student", "payments"]
  | "payment" => ["invoice", "student"]
  | "employee" => ["user", "salary_records"]
  | "salary_record" => ["employee"]
  | _ => []

/-- Mapped attributes of an entity's model class. -/
def modelAttrs (e : String) : List String :=
  modelColumns e ++ modelRelationshipAttrs e

/-- Python `hasattr(model, name)` on a declarative model class,
approximated by the mapped attributes plus the SQLAlchemy class utilities
`metadata` and `registry`.  Dunder and other class-machinery names are not
modelled; theorems quantifying over filter keys exclude names starting
with an underscore. -/
def pyHasattr (e name : String) : Bool :=
  name ∈ modelAttrs e ∨ name = "metadata" ∨ name = "registry"

/-- Non-`id` columns of an entity, in declaration order. -/
def nonIdCols (e : String) : List String :=
  (modelColumns e).filter (fun c => c ≠ "id")

-- ── Settings ───────────────────────────────────────────────────

/-- The service reads two attributes from the imported `settings` object.
`Settings` (in `app/core/config.py`) declares `OPS_CONFIDENCE_THRESHOLD`
(default 0.75) but declares no `RISK_HIGH_IMPACT_COUNT` at all, so that
attribute access raises `AttributeError`; the `Option` models the
attribute lookup (`none` = attribute missing). -/
structure OpsSettings where
  OPS_CONFIDENCE_THRESHOLD : PFloat
  RISK_HIGH_IMPACT_COUNT : Option Int
deriving DecidableEq, Repr

/-- The settings as shipped by `app/core/config.py`: threshold 0.75 and no
`RISK_HIGH_IMPACT_COUNT` attribute. -/
def configSettings : OpsSettings :=
  ⟨⟨75, 2⟩, none⟩

-- ── Risk classifier ────────────────────────────────────────────

/-- `_classify_risk(intent, entity, impact_count, fields)`; the `fields`
argument is accepted and never read, exactly as in the source.  The
`settings.RISK_HIGH_IMPACT_COUNT` attribute access is the `Option` lookup;
`Except.error` models the uncaught `AttributeError` when the attribute is
missing from `Settings`. -/
def classify_risk (riskHighImpactCount : Option Int) (intent entity : String)
    (impact_count : Int) (fields : List String) : Except String String :=
  let _ := fields
  if intent = "READ" ∨ intent = "ANALYZE" then .ok "LOW"
  else if intent = "DELETE" then .ok "HIGH"
  else if entity = "user" ∧ (intent = "UPDATE" ∨ intent = "CREATE") then .ok "HIGH"
  else
    match riskHighImpactCount with
    | none => .error "AttributeError: RISK_HIGH_IMPACT_COUNT"
    | some t =>
        if impact_count > t then .ok "HIGH"
        else if intent = "UPDATE" ∨ intent = "CREATE" then .ok "MEDIUM"
        else .ok "LOW"

-- ── Store model ────────────────────────────────────────────────

/-- A persisted entity row: the integer primary key plus the non-`id`
column values, as an association list in column-declaration order. -/
structure Row where
  id : Int
  fields : List (String × PyVal)
deriving DecidableEq, Repr

/-- A row snapshot, as produced by `_model_to_dict` (all columns,
including `id`). -/
abbrev Snapshot := List (String × PyVal)

/-- `_model_to_dict(instance)`: every column value keyed by column name
(date/datetime ISO serialization is the identity here because the model
keeps column values as `PyVal`). -/
def model_to_dict (r : Row) : Snapshot :=
  ("id", .vint r.id) :: r.fields

/-- The acting principal (`User.id`, `User.role.value`). -/
structure UserRec where
  id : Int
  role : String
deriving DecidableEq, Repr

/-- Persisted `OperationalPlan` attributes used by the pipeline. -/
structure PlanRec where
  plan_id : String
  user_id : Int
  module : String
  intent_type : String
  entity : String
  filters : List (String × PyVal)
  affected_fields : List String
  values : List (String × PyVal)
  confidence : PFloat
  risk_level : String
  estimated_impact_count : Int
  status : String
deriving DecidableEq, Repr

/-- Persisted `OperationalExecution` attributes used by the pipeline;
`failure_state` holds the error text of `{"error": str(exc)}` and
`rollback_state` records `{"rolled_back": True}`. -/
structure ExecRec where
  execution_id : String
  plan_id : String
  executed_by : Int
  status : String
  before_state : List Snapshot
  after_state : List Snapshot
  failure_state : Option String
  rollback_state : Bool
deriving DecidableEq, Repr

/-- Persisted `ImmutableAuditLog` attributes used by the pipeline;
`created_at` is the insertion tick. -/
structure AuditRec where
  event_id : String
  plan_id : Option String
  execution_id : Option String
  user_id : Int
  role : String
  module : String
  operation_type : String
  event_type : String
  risk_level : String
  before_state : List Snapshot
  after_state : List Snapshot
  created_at : Nat
deriving DecidableEq, Repr

/-- The transactional store contents: one row list per registry entity
plus the three governance tables. -/
structure DBState where
  tables : List (String × List Row)
  plans : List PlanRec
  executions : List ExecRec
  audits : List AuditRec
deriving DecidableEq, Repr

/-- Rows of an entity's table. -/
def DBState.tableOf (db : DBState) (e : String) : List Row :=
  match db.tables.find? (fun p => p.1 = e) with
  | some p => p.2
  | none => []

/-- Replace an entity's table. -/
def DBState.setTable (db : DBState) (e : String) (rows : List Row) : DBState :=
  { db with tables := db.tables.map (fun p => if p.1 = e then (e, rows) else p) }

/-- The session world: the store plus the generator for unique
ids/timestamps (`uuid4` and the clock live outside the transaction, so a
transaction rollback restores `db` but not `nextId`). -/
structure World where
  db : DBState
  nextId : Nat
deriving DecidableEq, Repr

/-- Append one audit event (`_audit`): a fresh `event_id` and insertion
tick, everything else verbatim from the caller. -/
def auditAppend (w : World) (plan_id execution_id : Option String)
    (user_id : Int) (role module operation_type event_type risk_level : String)
    (before after : List Snapshot) : World :=
  { db := { w.db with audits := w.db.audits ++
      [⟨"audit_" ++ toString w.nextId, plan_id, execution_id, user_id, role,
        module, operation_type, event_type, risk_level, before, after, w.nextId⟩] },
    nextId := w.nextId + 1 }

-- ── Query filters (_apply_filters) ─────────────────────────────

/-- The recognized filter-operator suffixes. -/
def opSuffixes : List String := ["lt", "lte", "gt", "gte", "eq", "ne"]

/-- Suffix parsing of a filter key: Python's
`key.rsplit("__", 1)` when `"__" in key` (split at the last occurrence),
keeping the whole key as the field name when the suffix is not a
recognized operator. -/
def rsplitKey (key : String) : String × Option String :=
  let cs := key.data
  match lastOccIdx cs ['_', '_'] with
  | none => (key, none)
  | some i =>
      let op := String.mk (cs.drop (i + 2))
      if op ∈ opSuffixes then (String.mk (cs.take i), some op)
      else (key, none)

/-- Column value of a row (`getattr(row, name)` for a mapped column). -/
def Row.fieldVal (r : Row) (name : String) : PyVal :=
  if name = "id" then .vint r.id
  else (lookupKey r.fields name).getD .vnone

/-- SQL comparison semantics on column values: numeric kinds compare by
value, strings lexicographically; `NULL` never satisfies an ordering
comparison.  Cross-type orderings are dialect-dependent and outside the
model (returned as false). -/
def sqlLt (a b : PyVal) : Bool :=
  if a.isNumeric ∧ b.isNumeric then numLtB a b
  else match a, b with
    | .vstr x, .vstr y => strLtB x y
    | _, _ => false

/-- SQL equality: `col == None` renders as `IS NULL`; a `NULL` column
value satisfies no other equality. -/
def sqlEq (colVal filterVal : PyVal) : Bool :=
  match filterVal with
  | .vnone => colVal == .vnone
  | _ => match colVal with
    | .vnone => false
    | _ => pyEq colVal filterVal

/-- SQL inequality: `col != None` renders as `IS NOT NULL`; a `NULL`
column value satisfies no other inequality. -/
def sqlNe (colVal filterVal : PyVal) : Bool :=
  match filterVal with
  | .vnone => colVal != .vnone
  | _ => match colVal with
    | .vnone => false
    | _ => ! pyEq colVal filterVal

/-- The operator chain at the end of the `_apply_filters` loop, applied to
an already-resolved column accessor.  `key == "id"` with no operator goes
through `int(value)` (an unparsable value raises, hence `Except`). -/
def opCondition (key : String) (op : Option String) (value : PyVal)
    (colOf : Row → PyVal) (isIdCol : Bool) : Except String (Row → Bool) :=
  match op with
  | some "lt" => .ok (fun r => sqlLt (colOf r) value)
  | some "lte" => .ok (fun r => sqlLt (colOf r) value || sqlEq (colOf r) value)
  | some "gt" => .ok (fun r => sqlLt value (colOf r))
  | some "gte" => .ok (fun r => sqlLt value (colOf r) || sqlEq (colOf r) value)
  | some "eq" => .ok (fun r => sqlEq (colOf r) value)
  | some "ne" => .ok (fun r => sqlNe (colOf r) value)
  | _ =>
      if key = "id" ∧ isIdCol then
        match pyToInt value with
        | some n => .ok (fun r => r.id = n)
        | none => .error "ValueError: int"
      else .ok (fun r => sqlEq (colOf r) value)

/-- One iteration of the `_apply_filters` loop for a single filter item:
`ok none` contributes no condition (the silent skip), `ok (some p)`
contributes a `WHERE` condition, `error` models an exception raised while
building the statement (comparing a relationship attribute to a plain
value raises in SQLAlchemy). -/
def filterCond (db : DBState) (entity : String) (key : String) (value : PyVal) :
    Except String (Option (Row → Bool)) :=
  let (field_name, operator) := rsplitKey key
  if ¬ pyHasattr entity field_name then
    if field_name = "semester" ∧ entity = "attendance" then
      -- join Student on Attendance.student_id == Student.id, compare
      -- Student.semester with the requested operator
      let students := db.tableOf "student"
      match opCondition key operator value (fun s => s.fieldVal "semester") false with
      | .error e => .error e
      | .ok onStudent =>
          .ok (some (fun a => students.any (fun s =>
            sqlEq (a.fieldVal "student_id") (.vint s.id) && onStudent s)))
    else if field_name = "department" ∧
        (entity = "student" ∨ entity = "faculty" ∨ entity = "course") then
      -- join Department and match lower(name) LIKE %value%.  (Unreachable
      -- for these three entities: each has a `department` relationship
      -- attribute, so the hasattr guard above never lets them in; kept as
      -- a faithful translation of the dead branch.)
      let departments := db.tableOf "department"
      .ok (some (fun r => departments.any (fun d =>
        sqlEq (r.fieldVal "department_id") (.vint d.id) &&
        containsSub (strLower (pyStrOf (d.fieldVal "name"))) (strLower (pyStrOf value)))))
    else
      .ok none
  else
    if field_name ∈ modelColumns entity then
      match opCondition key operator value (fun r => r.fieldVal field_name)
          (field_name = "id") with
      | .error e => .error e
      | .ok p => .ok (some p)
    else
      -- a mapped relationship (or SQLAlchemy class utility) compared to a
      -- plain JSON value: statement construction raises
      .error "RELATIONSHIP_COMPARISON"

/-- One fold step of `_apply_filters`: thread an already-raised error,
skip a dropped key, conjoin a contributed condition. -/
def applyFiltersStep (db : DBState) (entity : String)
    (acc : Except String (Row → Bool)) (kv : String × PyVal) :
    Except String (Row → Bool) :=
  match acc with
  | .error e => .error e
  | .ok p =>
      match filterCond db entity kv.1 kv.2 with
      | .error e => .error e
      | .ok none => .ok p
      | .ok (some q) => .ok (fun r => p r && q r)

/-- `_apply_filters(stmt, model, entity, filters)` as a row predicate: the
conjunction of the contributed conditions (an empty filter map selects
everything). -/
def apply_filters (db : DBState) (entity : String)
    (filters : List (String × PyVal)) : Except String (Row → Bool) :=
  filters.foldl (applyFiltersStep db entity) (.ok (fun _ => true))

-- ── Authorization ──────────────────────────────────────────────

/-- Python truthiness of an optional scalar (`target_dept and user_dept`). -/
def truthyOpt : Option PyVal → Bool
  | some v => v.truthy
  | none => false

/-- Python `!=` between the two resolved department scalars. -/
def pyNeOpt (a b : Option PyVal) : Bool :=
  match a, b with
  | some x, some y => ! pyEq x y
  | none, none => false
  | _, _ => true

/-- The `scalar_one_or_none()` of a single-column select: no row gives
`none`, one row gives the value, several rows raise
`MultipleResultsFound`. -/
def scalarOneOrNone (hits : List PyVal) : Except String (Option PyVal) :=
  match hits with
  | [] => .ok none
  | [v] => .ok (some v)
  | _ => .error "MultipleResultsFound"

/-- `_user_department_scope(db, user)`: the department id of the caller's
Student/Faculty profile row, `none` for admins or callers without a
profile row. -/
def user_department_scope (db : DBState) (user : UserRec) :
    Except String (Option PyVal) :=
  if user.role = "student" then
    scalarOneOrNone (((db.tableOf "student").filter
      (fun r => sqlEq (r.fieldVal "user_id") (.vint user.id))).map
      (fun r => r.fieldVal "department_id"))
  else if user.role = "faculty" then
    scalarOneOrNone (((db.tableOf "faculty").filter
      (fun r => sqlEq (r.fieldVal "user_id") (.vint user.id))).map
      (fun r => r.fieldVal "department_id"))
  else .ok none

/-- `_resolve_department_filter(db, filters)`: an explicit
`department_id` filter is `int(...)`-converted (`None` on failure), else a
truthy `department` name is matched against `lower(Department.name) LIKE
'%name%'`. -/
def resolve_department_filter (db : DBState)
    (filters : List (String × PyVal)) : Except String (Option PyVal) :=
  match lookupKey filters "department_id" with
  | some v =>
      match pyToInt v with
      | some n => .ok (some (.vint n))
      | none => .ok none
  | none =>
      match lookupKey filters "department" with
      | none => .ok none
      | some depName =>
          if ¬ depName.truthy then .ok none
          else
            scalarOneOrNone (((db.tableOf "department").filter
              (fun d => containsSub (strLower (pyStrOf (d.fieldVal "name")))
                (strLower (pyStrOf depName)))).map
              (fun d => d.fieldVal "id"))

/-- `_permission_gate(db, user, intent, entity, filters)`: role matrix,
then department-scope narrowing for student/faculty, then the blanket
student write ban.  `Except.error` models an exception escaping the
department lookups. -/
def permission_gate (db : DBState) (user : UserRec) (intent entity : String)
    (filters : List (String × PyVal)) : Except String (Bool × String) :=
  if ¬ is_allowed user.role intent entity then .ok (false, "ROLE_RESTRICTED")
  else
    match user_department_scope db user with
    | .error e => .error e
    | .ok user_dept =>
        match resolve_department_filter db filters with
        | .error e => .error e
        | .ok target_dept =>
            if (user.role = "student" ∨ user.role = "faculty") ∧
                truthyOpt target_dept ∧ truthyOpt user_dept ∧
                pyNeOpt target_dept user_dept then
              .ok (false, "DEPARTMENT_SCOPE_RESTRICTED")
            else if user.role = "student" ∧
                (intent = "UPDATE" ∨ intent = "DELETE" ∨ intent = "CREATE") then
              .ok (false, "STUDENT_WRITE_RESTRICTED")
            else .ok (true, "OK")

-- ── Execution engine ───────────────────────────────────────────

/-- The normalized intent payload as returned by `_extract_intent` (the
external oracle / fallback parser is the excluded collaborator; the
pipeline is modelled from the point its payload enters
`create_and_execute`). -/
structure IntentPayload where
  intent : String
  entity : String
  filters : List (String × PyVal)
  values : List (String × PyVal)
  affected_fields : List String
  confidence : PFloat
  ambiguityQuestion : Option String
deriving DecidableEq, Repr

/-- The discriminated result dictionary returned by the service entry
points (fields unused by a given status stay at their defaults). -/
structure ResultD where
  status : String
  message : String
  confidence : Option PFloat
  plan_id : Option String
  execution_id : Option String
  intent : Option String
  entity : Option String
  risk_level : Option String
  affected_count : Option Int
  before_state : List Snapshot
  after_state : List Snapshot
  errors : List String
  error : Option String
deriving DecidableEq, Repr

/-- A result with only the status set. -/
def emptyResult (status : String) : ResultD :=
  ⟨status, "", none, none, none, none, none, none, none, [], [], [], none⟩

/-- A bare `{"error": code}` return of the rollback path. -/
def errResult (code : String) : ResultD :=
  { emptyResult "" with error := some code }

/-- Python `ambiguity.get("question") or default`. -/
def questionOr (q : Option String) : String :=
  match q with
  | some s => if s ≠ "" then s else "Could you rephrase? I'm not sure what you want."
  | none => "Could you rephrase? I'm not sure what you want."

/-- `_human_summary(intent, entity, count)`. -/
def human_summary (intent entity : String) (count : Int) : String :=
  let label := replaceUnderscores entity
  let plural := if count ≠ 1 then "s" else ""
  let tailTxt := toString count ++ " " ++ label ++ " record" ++ plural ++ "."
  if intent = "READ" then "Found " ++ tailTxt
  else if intent = "ANALYZE" then "Analyzed " ++ tailTxt
  else if intent = "CREATE" then "Created " ++ toString count ++ " new " ++ label ++ " record" ++ plural ++ "."
  else if intent = "UPDATE" then "Updated " ++ tailTxt
  else if intent = "DELETE" then "Deleted " ++ tailTxt
  else "Completed " ++ intent ++ " on " ++ tailTxt

/-- Overwrite the value at a key of an association list, leaving the key
sequence unchanged (no entry is inserted for an absent key; the callers
guard presence through the column lists). -/
def setAssoc (l : List (String × PyVal)) (k : String) (v : PyVal) :
    List (String × PyVal) :=
  l.map (fun p => if p.1 = k then (k, v) else p)

/-- The column-level effect of a `setattr(row, k, v)` that returns: a
column assignment changes the column value — assigning `id` moves the
primary key (the store accepts only integer keys; non-integer assignments
would be rejected at flush and are outside the model) — while assigning a
class utility such as `metadata` binds a plain instance attribute with no
column effect.  The raising call is `Row.setattrE`; this helper is only
ever applied beneath its success case. -/
def Row.setattrCol (r : Row) (e k : String) (v : PyVal) : Row :=
  if k = "id" then
    match v with
    | .vint n => { r with id := n }
    | _ => r
  else if k ∈ nonIdCols e then { r with fields := setAssoc r.fields k v }
  else r

/-- `setattr(row, k, v)` for a `hasattr`-passing name: assigning a plain
value to a mapped relationship attribute raises (the relationship
machinery dereferences `_sa_instance_state` on the value — on an async
session even the attribute access itself can raise), aborting the
surrounding operation; every other assignment returns and has the
column-level effect of `Row.setattrCol`. -/
def Row.setattrE (r : Row) (e k : String) (v : PyVal) : Except String Row :=
  if k ∈ modelRelationshipAttrs e then
    .error "AttributeError: _sa_instance_state"
  else .ok (r.setattrCol e k v)

/-- The effect on one row of a completed UPDATE value loop (every
`setattr` returned): used to state what the table holds after a
successful mutation.  The loop itself, with its raising `setattr`, is
`applyValuesRowE`. -/
def applyValuesRow (e : String) (r : Row) (values : List (String × PyVal)) : Row :=
  values.foldl
    (fun row kv => if pyHasattr e kv.1 then row.setattrCol e kv.1 kv.2 else row) r

/-- The UPDATE inner loop: `for key, value in values.items(): if
hasattr(row, key): setattr(row, key, value)` — the loop propagates the
exception of the first relationship-named key it assigns. -/
def applyValuesRowE (e : String) (r : Row) (values : List (String × PyVal)) :
    Except String Row :=
  values.foldlM
    (fun row kv => if pyHasattr e kv.1 then row.setattrE e kv.1 kv.2 else .ok row) r

/-- Max rows returned for READ operations (`READ_ROW_LIMIT`). -/
def READ_ROW_LIMIT : Nat := 200

/-- Result of the transactional mutation block (step 8 of
`create_and_execute`): the store after the mutation, the captured
before/after snapshots, and the `_db_analysis` count for ANALYZE. -/
structure MutOut where
  db : DBState
  before : List Snapshot
  after : List Snapshot
  analysisCount : Option Int
deriving DecidableEq, Repr

/-- The body of the `try` block of `create_and_execute`: fetch, snapshot
and mutate per intent.  `Except.error` carries the exception text together
with the values the local `before_state` / `after_state` variables held
when the exception was raised (the `except` branch audits them). -/
def perform_mutation (db : DBState) (intent entity : String)
    (filters values : List (String × PyVal)) :
    Except (String × List Snapshot × List Snapshot) MutOut :=
  match apply_filters db entity filters with
  | .error e => .error (e, [], [])
  | .ok pred =>
    let table := db.tableOf entity
    if intent = "ANALYZE" then
      -- `_db_analysis`: database-side count plus a 5-row sample
      let hits := table.filter pred
      let sample := (hits.take 5).map model_to_dict
      .ok ⟨db, sample, sample, some (hits.length : Int)⟩
    else if intent = "READ" then
      let rows := (table.filter pred).take READ_ROW_LIMIT
      let before := rows.map model_to_dict
      .ok ⟨db, before, before, none⟩
    else
      let rows := table.filter pred
      let before := rows.map model_to_dict
      if intent = "CREATE" then
        -- `model(**values)`: the declarative constructor walks the kwargs
        -- in order; a name that is no mapped attribute raises TypeError,
        -- and a plain value assigned to a relationship attribute raises
        -- inside the relationship machinery
        match values.find? (fun kv =>
            ¬ (kv.1 ∈ modelAttrs entity) ∨ kv.1 ∈ modelRelationshipAttrs entity) with
        | some kv =>
            .error (if kv.1 ∈ modelAttrs entity then
                "AttributeError: _sa_instance_state"
              else "TypeError: invalid keyword argument", before, [])
        | none =>
          let newId : Int :=
            match lookupKey values "id" with
            | some (.vint n) => n
            | _ => (table.map Row.id).foldl max 0 + 1
          let newRow : Row :=
            ⟨newId, (nonIdCols entity).map
              (fun c => (c, (lookupKey values c).getD .vnone))⟩
          .ok ⟨db.setTable entity (table ++ [newRow]), before,
               [model_to_dict newRow], none⟩
      else if intent = "UPDATE" then
        -- the per-row value loop; its first raising `setattr` aborts the
        -- whole mutation (`after_state` is still unbuilt at that point)
        match rows.mapM (fun r => applyValuesRowE entity r values) with
        | .error err => .error (err, before, [])
        | .ok updated =>
            let table2 := table.map
              (fun r => if pred r then applyValuesRow entity r values else r)
            .ok ⟨db.setTable entity table2, before, updated.map model_to_dict, none⟩
      else if intent = "DELETE" then
        .ok ⟨db.setTable entity (table.filter (fun r => ¬ pred r)), before, [], none⟩
      else
        -- an unrecognized write intent falls through every branch: the
        -- snapshots are kept, `after_state` stays `[]`, nothing mutates
        .ok ⟨db, before, [], none⟩

/-- `create_and_execute(db, user, message, module)` from the point the
extracted intent payload is available: clarification gate, permission
gate, validation, impact/risk, Plan/Execution persistence and the
transactional mutation with its `except` path.  `Except.error` models an
exception escaping the function (nothing in the source catches errors
raised before the `try` block). -/
def create_and_execute (S : OpsSettings) (w : World) (user : UserRec)
    (module : String) (payload : IntentPayload) : Except String (World × ResultD) :=
  let user_id := user.id
  let user_role := user.role
  let intent := strUpper payload.intent
  let entity := normalize_entity payload.entity
  let filters := payload.filters
  let values0 := payload.values
  let affected_fields :=
    if payload.affected_fields.isEmpty then keysOf values0
    else payload.affected_fields
  let confidence := payload.confidence
  -- 2. low confidence → clarification (no Plan, no Execution)
  if PFloat.ltB confidence S.OPS_CONFIDENCE_THRESHOLD then
    let w1 := auditAppend w none none user_id user_role module intent
      "clarification_needed" "LOW" [] []
    .ok (w1, { emptyResult "clarification_needed" with
      message := questionOr payload.ambiguityQuestion,
      confidence := some confidence })
  else
    -- 3. permission check
    match permission_gate w.db user intent entity filters with
    | .error e => .error e
    | .ok (allowed, reason) =>
      if ¬ allowed then
        let w1 := auditAppend w none none user_id user_role module intent
          "permission_denied" "LOW" [] []
        .ok (w1, { emptyResult "denied" with
          message := "Permission denied: " ++ reason,
          intent := some intent, entity := some entity })
      else
        -- 4. validate field values for write operations
        let vr :=
          if ¬ values0.isEmpty ∧ (intent = "CREATE" ∨ intent = "UPDATE") then
            validate_field_values values0
          else (values0, [])
        let values := vr.1
        if ¬ vr.2.isEmpty then
          .ok (w, { emptyResult "validation_error" with
            message := "Some field values are invalid.", errors := vr.2 })
        else
          -- 5. impact estimate & risk classification (audit only)
          match apply_filters w.db entity filters with
          | .error e => .error e
          | .ok pred =>
            let impact : Int := (((w.db.tableOf entity).filter pred).length : Int)
            match classify_risk S.RISK_HIGH_IMPACT_COUNT intent entity impact
                affected_fields with
            | .error e => .error e
            | .ok risk =>
              -- 6./7. persist Plan (executing) and Execution (pending)
              let plan_id := "ops_" ++ toString w.nextId
              let execution_id := "exec_" ++ toString (w.nextId + 1)
              let plan : PlanRec := ⟨plan_id, user_id, module, intent, entity,
                filters, affected_fields, values, confidence, risk, impact,
                "executing"⟩
              let exec0 : ExecRec := ⟨execution_id, plan_id, user_id, "pending",
                [], [], none, false⟩
              let dbAtEntry := w.db
              let w2 : World := ⟨{ w.db with
                plans := w.db.plans ++ [plan],
                executions := w.db.executions ++ [exec0] }, w.nextId + 2⟩
              -- 8. execute the operation inside the transaction
              match perform_mutation w2.db intent entity filters values with
              | .ok mo =>
                let readlike := intent = "READ" ∨ intent = "ANALYZE"
                let execBefore := if readlike then mo.before.take 10 else mo.before
                let execAfter := if readlike then mo.after.take 10 else mo.after
                let db3 : DBState := { mo.db with
                  plans := mo.db.plans.map (fun p =>
                    if p.plan_id = plan_id then { p with status := "executed" } else p),
                  executions := mo.db.executions.map (fun x =>
                    if x.execution_id = execution_id then
                      { x with status := "executed",
                               before_state := execBefore,
                               after_state := execAfter } else x) }
                let affected_count : Int :=
                  if intent = "ANALYZE" then (mo.analysisCount).getD 0
                  else if intent = "CREATE" then (mo.after.length : Int)
                  else (mo.before.length : Int)
                let w3 := auditAppend ⟨db3, w2.nextId⟩ (some plan_id)
                  (some execution_id) user_id user_role module intent
                  "executed" risk execBefore execAfter
                .ok (w3, { emptyResult "executed" with
                  plan_id := some plan_id,
                  execution_id := some execution_id,
                  intent := some intent,
                  entity := some entity,
                  risk_level := some risk,
                  affected_count := some affected_count,
                  before_state := mo.before,
                  after_state := mo.after,
                  message := human_summary intent entity affected_count,
                  confidence := some confidence })
              | .error (e, beforePart, afterPart) =>
                -- `db.rollback()` undoes the whole uncommitted transaction,
                -- including the Plan/Execution inserts; the re-fetch then
                -- finds nothing and the `if plan:` / `if execution:` guards
                -- silently skip the failure marking
                let dbRb := dbAtEntry
                let plans2 := dbRb.plans.map (fun p =>
                  if p.plan_id = plan_id then { p with status := "failed" } else p)
                let execs2 := dbRb.executions.map (fun x =>
                  if x.execution_id = execution_id then
                    { x with status := "failed", failure_state := some e } else x)
                let wFail := auditAppend
                  ⟨{ dbRb with plans := plans2, executions := execs2 }, w2.nextId⟩
                  (some plan_id) (some execution_id) user_id user_role module
                  intent "failed" risk beforePart afterPart
                .ok (wFail, { emptyResult "failed" with
                  plan_id := some plan_id,
                  execution_id := some execution_id,
                  intent := some intent,
                  entity := some entity,
                  risk_level := some risk,
                  affected_count := some 0,
                  before_state := beforePart,
                  after_state := afterPart,
                  confidence := some confidence,
                  error := some e,
                  message := "Operation failed: " ++ e })

-- ── Rollback engine ────────────────────────────────────────────

/-- Row id recorded in a snapshot (`snapshot.get("id")`); a missing or
non-integer id selects no current row. -/
def snapIdInt (snap : Snapshot) : Option Int :=
  match lookupKey snap "id" with
  | some (.vint n) => some n
  | _ => none

/-- The UPDATE-rollback inner loop body: overwrite every snapshot field
except `id` back onto the row (`if hasattr(row, key): setattr(...)`). -/
def restoreSnapshotRow (e : String) (r : Row) (snap : Snapshot) : Row :=
  snap.foldl
    (fun row kv =>
      if kv.1 = "id" then row
      else if pyHasattr e kv.1 then row.setattrCol e kv.1 kv.2
      else row) r

/-- Per-row view of one UPDATE-rollback loop step: the store fetches the
single row carrying the snapshot's primary key (the `id` column is unique)
and overwrites its fields; other rows are untouched. -/
def restoreStepRow (e : String) (snap : Snapshot) (r : Row) : Row :=
  match snapIdInt snap with
  | none => r
  | some rid => if r.id = rid then restoreSnapshotRow e r snap else r

/-- Reconstruct a deleted row from its snapshot
(`model(**record_data)` plus the explicit id assignment); pipeline
snapshots hold exactly the model columns, so the constructor cannot raise
here. -/
def rowFromSnapshot (e : String) (table : List Row) (snap : Snapshot) : Row :=
  let rid : Int :=
    match snapIdInt snap with
    | some n => n
    | none => (table.map Row.id).foldl max 0 + 1
  ⟨rid, (nonIdCols e).map (fun c => (c, (lookupKey snap c).getD .vnone))⟩

/-- `rollback_execution(db, user, execution_id)`: authorization and status
preconditions, reversal by original intent type, status flip to
`rolled_back` and the reversed-snapshot audit event. -/
def rollback_execution (w : World) (user : UserRec) (execution_id : String) :
    World × ResultD :=
  match w.db.executions.find? (fun x => x.execution_id = execution_id) with
  | none => (w, errResult "EXECUTION_NOT_FOUND")
  | some execution =>
    match w.db.plans.find? (fun p => p.plan_id = execution.plan_id) with
    | none => (w, errResult "PLAN_NOT_FOUND")
    | some plan =>
      if user.role ≠ "admin" ∧ execution.executed_by ≠ user.id then
        (w, errResult "ROLLBACK_NOT_PERMITTED")
      else if execution.status ≠ "executed" then
        (w, errResult ("CANNOT_ROLLBACK_STATUS:" ++ execution.status))
      else
        let entity := plan.entity
        let table := w.db.tableOf entity
        let newTable : Option (List Row) :=
          if plan.intent_type = "CREATE" then
            let createdIds : List PyVal := execution.after_state.filterMap
              (fun s => match lookupKey s "id" with
                | some .vnone => none
                | some v => some v
                | none => none)
            if createdIds.isEmpty then some table
            else some (table.filter
              (fun r => ¬ createdIds.any (fun v => pyEq (.vint r.id) v)))
          else if plan.intent_type = "UPDATE" then
            -- per snapshot: re-fetch the current row by primary key and
            -- overwrite its fields (the id column is unique, so the
            -- per-id map is the single fetched row)
            some (execution.before_state.foldl
              (fun t snap =>
                match snapIdInt snap with
                | none => t
                | some rid => t.map
                    (fun r => if r.id = rid then restoreSnapshotRow entity r snap else r))
              table)
          else if plan.intent_type = "DELETE" then
            some (execution.before_state.foldl
              (fun t snap => t ++ [rowFromSnapshot entity t snap]) table)
          else none
        match newTable with
        | none => (w, errResult "ROLLBACK_NOT_SUPPORTED_FOR_OPERATION")
        | some table2 =>
          let db2 := (w.db.setTable entity table2)
          let db3 : DBState := { db2 with
            executions := db2.executions.map (fun x =>
              if x.execution_id = execution_id then
                { x with status := "rolled_back", rollback_state := true } else x),
            plans := db2.plans.map (fun p =>
              if p.plan_id = plan.plan_id then { p with status := "rolled_back" } else p) }
          let w2 := auditAppend ⟨db3, w.nextId⟩ (some plan.plan_id)
            (some execution.execution_id) user.id user.role plan.module
            plan.intent_type "rollback" plan.risk_level
            execution.after_state execution.before_state
          (w2, { emptyResult "rolled_back" with
            execution_id := some execution_id,
            plan_id := some plan.plan_id,
            message := "Rollback completed for " ++ entity ++ " " ++
              plan.intent_type ++ " operation." })

-- ── Audit history reader ───────────────────────────────────────

/-- Python truthiness of an optional string parameter (empty strings are
falsy and contribute no condition). -/
def strParam (o : Option String) : Option String :=
  match o with
  | some s => if s ≠ "" then some s else none
  | none => none

/-- `get_audit_history(db, user, ...)`: optional filters, the forced
own-`user_id` condition for non-admins, newest-first ordering and the
capped limit. -/
def get_audit_history (db : DBState) (user : UserRec)
    (module operation_type risk_level : Option String)
    (actor_user_id : Option Int) (start_date end_date : Option Nat)
    (limit : Nat) : List AuditRec :=
  let conds : List (AuditRec → Bool) :=
    (match strParam module with
      | some m => [fun a => a.module == m]
      | none => []) ++
    (match strParam operation_type with
      | some t => [fun a => a.operation_type == strUpper t]
      | none => []) ++
    (match strParam risk_level with
      | some rl => [fun a => a.risk_level == strUpper rl]
      | none => []) ++
    (match actor_user_id with
      | some i => if i ≠ 0 then [fun a => a.user_id == i] else []
      | none => []) ++
    (match start_date with
      | some d => [fun a => decide (d ≤ a.created_at)]
      | none => []) ++
    (match end_date with
      | some d => [fun a => decide (a.created_at ≤ d)]
      | none => []) ++
    (if user.role ≠ "admin" then [fun a => a.user_id == user.id] else [])
  let rows := db.audits.filter (fun a => conds.all (fun c => c a))
  (rows.insertionSort (fun x y => y.created_at ≤ x.created_at)).take (min limit 500)

-- ── Well-formedness of stored rows (database schema invariants) ─

/-- A stored row holds exactly the non-`id` columns of its entity, in
declaration order (what the ORM materializes for a mapped row). -/
def wfRow (e : String) (r : Row) : Prop :=
  keysOf r.fields = nonIdCols e

/-- Schema invariants of one entity table: the table exists in the store,
every row is well-formed, and primary keys are unique (the `id` column is
the primary key). -/
def wfEntityTable (db : DBState) (e : String) : Prop :=
  (db.tables.find? (fun p => p.1 = e)).isSome = true ∧
  (∀ r ∈ db.tableOf e, wfRow e r) ∧
  ((db.tableOf e).map Row.id).Nodup

/-- The filter key never contributes a `WHERE` condition: after operator
stripping it names no mapped attribute of the entity's model, is not one
of the special-cased join fields, and is not an underscore-prefixed
class-machinery name (dunder attributes are outside the model). -/
def unknownFilterKey (entity k : String) : Prop :=
  pyHasattr entity (rsplitKey k).1 = false ∧
  ¬ ((rsplitKey k).1 = "semester" ∧ entity = "attendance") ∧
  ¬ ((rsplitKey k).1 = "department" ∧
      (entity = "student" ∨ entity = "faculty" ∨ entity = "course")) ∧
  (match (rsplitKey k).1.data with
    | '_' :: _ => true
    | _ => false) = false

instance (entity k : String) : Decidable (unknownFilterKey entity k) := by
  unfold unknownFilterKey; infer_instance

instance (e : String) (r : Row) : Decidable (wfRow e r) := by
  unfold wfRow; infer_instance

instance (db : DBState) (e : String) : Decidable (wfEntityTable db e) := by
  unfold wfEntityTable; infer_instance

-- ── Concrete fixtures for witnesses and counterexamples ────────

/-- A configuration in which `RISK_HIGH_IMPACT_COUNT` is defined, with the
value 50 that the repository's own risk-classification tests assume. -/
def settingsWith50 : OpsSettings := ⟨⟨75, 2⟩, some 50⟩

/-- A well-formed student row (id 1). -/
def srow1 : Row :=
  ⟨1, [("user_id", .vint 10), ("roll_number", .vstr "R1"),
       ("department_id", .vint 1), ("semester", .vint 3), ("section", .vstr "A"),
       ("cgpa", .vfloat ⟨8, 0⟩), ("admission_year", .vint 2022)]⟩

/-- A well-formed student row (id 2). -/
def srow2 : Row :=
  ⟨2, [("user_id", .vint 11), ("roll_number", .vstr "R2"),
       ("department_id", .vint 1), ("semester", .vint 4), ("section", .vstr "B"),
       ("cgpa", .vfloat ⟨7, 0⟩), ("admission_year", .vint 2021)]⟩

/-- An empty table for every registry entity. -/
def emptyTables : List (String × List Row) :=
  [("student", []), ("faculty", []), ("course", []), ("department", []),
   ("attendance", []), ("prediction", []), ("student_fee", []), ("invoice", []),
   ("payment", []), ("employee", []), ("salary_record", [])]

/-- Install rows into one entity's (empty) table. -/
def tablesWith (e : String) (rows : List Row) : List (String × List Row) :=
  emptyTables.map (fun p => if p.1 = e then (e, rows) else p)

def adminUser : UserRec := ⟨1, "admin"⟩
def studentUser : UserRec := ⟨5, "student"⟩
def facultyUser : UserRec := ⟨7, "faculty"⟩

/-- World with a single student row. -/
def worldOneStudent : World := ⟨⟨tablesWith "student" [srow1], [], [], []⟩, 0⟩

/-- World with two student rows. -/
def worldTwoStudents : World := ⟨⟨tablesWith "student" [srow1, srow2], [], [], []⟩, 0⟩

/-- Two departments whose lowered names both contain "science". -/
def deptRow1 : Row := ⟨1, [("name", .vstr "Computer Science"), ("code", .vstr "CS")]⟩
def deptRow2 : Row := ⟨2, [("name", .vstr "Data Science"), ("code", .vstr "DS")]⟩

/-- World with the two "…Science" departments. -/
def worldTwoDepts : World := ⟨⟨tablesWith "department" [deptRow1, deptRow2], [], [], []⟩, 0⟩

/-- A faculty profile row linking `facultyUser` to department 1. -/
def facRow : Row :=
  ⟨3, [("user_id", .vint 7), ("employee_id", .vstr "F1"),
       ("department_id", .vint 1), ("designation", .vstr "Prof")]⟩

/-- World holding the faculty profile of `facultyUser`. -/
def worldFaculty : World := ⟨⟨tablesWith "faculty" [facRow], [], [], []⟩, 0⟩

/-- A high-confidence UPDATE payload that also writes the `id` column. -/
def idWritePayload : IntentPayload :=
  ⟨"UPDATE", "student", [], [("id", .vint 2), ("semester", .vint 5)], ["id"], ⟨9, 1⟩, none⟩

/-- A high-confidence UPDATE payload on `semester` only. -/
def semesterPayload : IntentPayload :=
  ⟨"UPDATE", "student", [], [("semester", .vint 5)], ["semester"], ⟨9, 1⟩, none⟩

/-- A high-confidence CREATE payload whose values hold a key that is no
mapped attribute of `course`, so the model constructor raises inside the
transactional phase. -/
def bogusCreatePayload : IntentPayload :=
  ⟨"CREATE", "course", [], [("bogus", .vint 1)], ["bogus"], ⟨9, 1⟩, none⟩

/-- A low-confidence UPDATE payload (confidence 0.41). -/
def vaguePayload : IntentPayload :=
  ⟨"UPDATE", "student", [], [], [], ⟨41, 2⟩,
   some "Which student and which fields should be updated?"⟩

/-- Audit rows of two different users, for the history reader. -/
def auditRowA : AuditRec :=
  ⟨"audit_a", none, none, 7, "faculty", "nlp", "READ", "executed", "LOW", [], [], 1⟩
def auditRowB : AuditRec :=
  ⟨"audit_b", none, none, 3, "admin", "hr", "UPDATE", "executed", "MEDIUM", [], [], 2⟩

/-- Store holding the two audit rows. -/
def dbAudit : DBState := ⟨emptyTables, [], [], [auditRowA, auditRowB]⟩

/-- The world/result pair of the executed UPDATE that also wrote the `id`
column (`idWritePayload` against the one-student world). -/
def c1fail : World × ResultD :=
  ((create_and_execute settingsWith50 worldOneStudent adminUser "nlp"
    idWritePayload).toOption).getD (worldOneStudent, emptyResult "")

-- ── Association-list lemmas ────────────────────────────────────

theorem setAssoc_keys (l : List (String × PyVal)) (k : String) (v : PyVal) :
    (setAssoc l k v).map Prod.fst = l.map Prod.fst := by
  unfold setAssoc
  rw [List.map_map]
  apply List.map_congr_left
  intro a _
  by_cases h : a.1 = k <;> simp [h]

theorem lookupKey_setAssoc_self (l : List (String × PyVal)) (k : String) (v : PyVal)
    (hmem : k ∈ l.map Prod.fst) : lookupKey (setAssoc l k v) k = some v := by
  induction l with
  | nil => cases hmem
  | cons p rest ih =>
    by_cases h : p.1 = k
    · simp [setAssoc, lookupKey, h]
    · simp only [List.map_cons, List.mem_cons] at hmem
      rcases hmem with h1 | h2
      · exact absurd h1.symm h
      · simpa [setAssoc, lookupKey, h, Ne.symm h] using ih h2

theorem lookupKey_setAssoc_ne (l : List (String × PyVal)) (k : String) (v : PyVal)
    (k2 : String) (h : k2 ≠ k) :
    lookupKey (setAssoc l k v) k2 = lookupKey l k2 := by
  induction l with
  | nil => rfl
  | cons p rest ih =>
    have ih2 : lookupKey (List.map (fun p => if p.1 = k then (k, v) else p) rest) k2 =
        lookupKey rest k2 := by simpa [setAssoc] using ih
    by_cases hp : p.1 = k
    · simp only [setAssoc, List.map_cons, if_pos hp, lookupKey]
      rw [if_neg (fun hh => h hh.symm), if_neg (fun hh => h (hp ▸ hh).symm)]
      exact ih2
    · simp only [setAssoc, List.map_cons, if_neg hp, lookupKey]
      by_cases hp2 : p.1 = k2
      · rw [if_pos hp2, if_pos hp2]
      · rw [if_neg hp2, if_neg hp2]
        exact ih2

theorem lookupKey_eq_none (l : List (String × PyVal)) (k : String)
    (h : ¬ k ∈ l.map Prod.fst) : lookupKey l k = none := by
  induction l with
  | nil => rfl
  | cons p rest ih =>
    simp only [List.map_cons, List.mem_cons] at h
    push_neg at h
    simp only [lookupKey]
    rw [if_neg (fun hh => h.1 hh.symm)]
    exact ih h.2

theorem fields_fold_keys (xs zs : List (String × PyVal)) :
    ((xs.foldl (fun acc (kv : String × PyVal) => setAssoc acc kv.1 kv.2) zs).map Prod.fst) =
      zs.map Prod.fst := by
  induction xs generalizing zs with
  | nil => rfl
  | cons kv rest ih => rw [List.foldl_cons, ih, setAssoc_keys]

theorem fields_fold_lookup (xs zs : List (String × PyVal))
    (hsub : ∀ kv ∈ xs, kv.1 ∈ zs.map Prod.fst)
    (hnd : (xs.map Prod.fst).Nodup) (k : String) :
    lookupKey (xs.foldl (fun acc (kv : String × PyVal) => setAssoc acc kv.1 kv.2) zs) k =
      ((lookupKey xs k).or (lookupKey zs k)) := by
  induction xs generalizing zs with
  | nil => simp [lookupKey]
  | cons kv rest ih =>
    rw [List.foldl_cons]
    have hnd2 := hnd
    simp only [List.map_cons, List.nodup_cons] at hnd2
    have hsub2 : ∀ p ∈ rest, p.1 ∈ (setAssoc zs kv.1 kv.2).map Prod.fst := by
      intro p hp
      rw [setAssoc_keys]
      exact hsub p (List.mem_cons_of_mem kv hp)
    rw [ih (setAssoc zs kv.1 kv.2) hsub2 hnd2.2]
    by_cases hk : k = kv.1
    · have hnone : lookupKey rest k = none := by
        apply lookupKey_eq_none
        rw [hk]
        exact hnd2.1
      rw [hnone, hk,
        lookupKey_setAssoc_self zs kv.1 kv.2 (hsub kv (List.mem_cons_self kv rest))]
      simp [lookupKey]
    · rw [lookupKey_setAssoc_ne zs kv.1 kv.2 k hk]
      simp [lookupKey, Ne.symm hk, hk]

theorem assoc_ext (l1 l2 : List (String × PyVal))
    (hk : l1.map Prod.fst = l2.map Prod.fst)
    (hnd : (l1.map Prod.fst).Nodup)
    (hl : ∀ k, lookupKey l1 k = lookupKey l2 k) : l1 = l2 := by
  induction l1 generalizing l2 with
  | nil =>
    cases l2 with
    | nil => rfl
    | cons q t => simp at hk
  | cons p rest ih =>
    cases l2 with
    | nil => simp at hk
    | cons q t =>
      simp only [List.map_cons, List.cons.injEq] at hk
      have hkey : p.1 = q.1 := hk.1
      have hv : p.2 = q.2 := by
        have h1 := hl p.1
        simp only [lookupKey, if_pos rfl] at h1
        rw [if_pos hkey.symm] at h1
        exact (Option.some.injEq _ _).mp h1
      simp only [List.map_cons, List.nodup_cons] at hnd
      have htail : ∀ k, lookupKey rest k = lookupKey t k := by
        intro k
        by_cases hkp : k = p.1
        · have h2 : ¬ p.1 ∈ List.map Prod.fst t := by
            rw [← hk.2]
            exact hnd.1
          rw [hkp, lookupKey_eq_none rest p.1 hnd.1, lookupKey_eq_none t p.1 h2]
        · have := hl k
          simp only [lookupKey] at this
          rw [if_neg (fun hh => hkp hh.symm), if_neg (fun hh => hkp (hkey ▸ hh.symm))] at this
          exact this
      have : rest = t := ih t hk.2 hnd.2 htail
      cases p; cases q
      simp_all

-- ── Row-level lemmas ───────────────────────────────────────────

theorem nonIdCols_nodup (e : String) : (nonIdCols e).Nodup := by
  unfold nonIdCols modelColumns
  split <;> decide

theorem nonIdCols_sub_cols (e : String) : ∀ c ∈ nonIdCols e, c ∈ modelColumns e := by
  intro c hc
  exact List.mem_of_mem_filter hc

theorem nonIdCols_ne_id (e : String) : ∀ c ∈ nonIdCols e, c ≠ "id" := by
  intro c hc
  have := List.of_mem_filter hc
  simpa using this

theorem setattrCol_keys (r : Row) (e k : String) (v : PyVal) :
    (r.setattrCol e k v).fields.map Prod.fst = r.fields.map Prod.fst := by
  unfold Row.setattrCol
  split
  · cases v <;> simp
  · split
    · simp [setAssoc_keys]
    · rfl

theorem setattrCol_id_of_ne (r : Row) (e k : String) (v : PyVal) (h : k ≠ "id") :
    (r.setattrCol e k v).id = r.id := by
  unfold Row.setattrCol
  rw [if_neg h]
  split <;> rfl

theorem applyValuesRow_keys (e : String) (values : List (String × PyVal)) (r : Row) :
    (applyValuesRow e r values).fields.map Prod.fst = r.fields.map Prod.fst := by
  induction values generalizing r with
  | nil => rfl
  | cons kv rest ih =>
    unfold applyValuesRow at *
    rw [List.foldl_cons]
    by_cases h : pyHasattr e kv.1 = true
    · rw [if_pos h, ih, setattrCol_keys]
    · rw [if_neg h, ih]

theorem applyValuesRow_id (e : String) (values : List (String × PyVal)) (r : Row)
    (h : ∀ kv ∈ values, kv.1 ≠ "id") : (applyValuesRow e r values).id = r.id := by
  induction values generalizing r with
  | nil => rfl
  | cons kv rest ih =>
    unfold applyValuesRow at *
    rw [List.foldl_cons]
    have htail : ∀ p ∈ rest, p.1 ≠ "id" := fun p hp => h p (List.mem_cons_of_mem kv hp)
    by_cases hh : pyHasattr e kv.1 = true
    · rw [if_pos hh, ih _ htail, setattrCol_id_of_ne r e kv.1 kv.2 (h kv (List.mem_cons_self kv rest))]
    · rw [if_neg hh, ih _ htail]

theorem applyValuesRowE_ok (e : String) (values : List (String × PyVal)) (r : Row)
    (h : ∀ kv ∈ values, ¬ kv.1 ∈ modelRelationshipAttrs e) :
    applyValuesRowE e r values = .ok (applyValuesRow e r values) := by
  induction values generalizing r with
  | nil => rfl
  | cons kv rest ih =>
    unfold applyValuesRowE applyValuesRow at *
    rw [List.foldlM_cons, List.foldl_cons]
    have htail : ∀ p ∈ rest, ¬ p.1 ∈ modelRelationshipAttrs e :=
      fun p hp => h p (List.mem_cons_of_mem kv hp)
    have hstep : (if pyHasattr e kv.1 then Row.setattrE r e kv.1 kv.2 else .ok r) =
        .ok (if pyHasattr e kv.1 then Row.setattrCol r e kv.1 kv.2 else r) := by
      by_cases hh : pyHasattr e kv.1 = true
      · rw [if_pos hh, if_pos hh]
        unfold Row.setattrE
        rw [if_neg (h kv (List.mem_cons_self kv rest))]
      · rw [if_neg hh, if_neg hh]
    rw [hstep]
    exact ih _ htail

theorem mapM_applyValuesRowE (e : String) (rows : List Row)
    (values : List (String × PyVal))
    (h : ∀ kv ∈ values, ¬ kv.1 ∈ modelRelationshipAttrs e) :
    rows.mapM (fun r => applyValuesRowE e r values) =
      .ok (rows.map (fun r => applyValuesRow e r values)) := by
  induction rows with
  | nil => rfl
  | cons r rest ih =>
    rw [List.mapM_cons, applyValuesRowE_ok e values r h, ih]
    rfl

theorem restoreSnapshotRow_id (e : String) (snap : Snapshot) (r : Row) :
    (restoreSnapshotRow e r snap).id = r.id := by
  induction snap generalizing r with
  | nil => rfl
  | cons kv rest ih =>
    unfold restoreSnapshotRow at *
    rw [List.foldl_cons]
    by_cases h1 : kv.1 = "id"
    · rw [if_pos h1, ih]
    · rw [if_neg h1]
      by_cases h2 : pyHasattr e kv.1 = true
      · rw [if_pos h2, ih, setattrCol_id_of_ne r e kv.1 kv.2 h1]
      · rw [if_neg h2, ih]

theorem restoreStepRow_id (e : String) (snap : Snapshot) (r : Row) :
    (restoreStepRow e snap r).id = r.id := by
  unfold restoreStepRow
  split
  · rfl
  · split
    · rw [restoreSnapshotRow_id]
    · rfl

theorem lookupKey_isSome (l : List (String × PyVal)) (k : String)
    (h : k ∈ l.map Prod.fst) : ∃ v, lookupKey l k = some v := by
  induction l with
  | nil => cases h
  | cons p rest ih =>
    by_cases hp : p.1 = k
    · exact ⟨p.2, by simp [lookupKey, hp]⟩
    · simp only [List.map_cons, List.mem_cons] at h
      rcases h with h1 | h2
      · exact absurd h1.symm hp
      · rcases ih h2 with ⟨v, hv⟩
        exact ⟨v, by simp [lookupKey, hp, hv]⟩

/-- The fields-level view of the restore loop: on keys that are non-`id`
columns, each step is exactly a `setAssoc` on the fields. -/
theorem restore_fold_fields (e : String) (xs : List (String × PyVal)) (r0 : Row)
    (hcols : ∀ kv ∈ xs, kv.1 ∈ nonIdCols e) :
    (xs.foldl
      (fun row (kv : String × PyVal) =>
        if kv.1 = "id" then row
        else if pyHasattr e kv.1 then row.setattrCol e kv.1 kv.2
        else row) r0) =
    ⟨r0.id, xs.foldl (fun acc (kv : String × PyVal) => setAssoc acc kv.1 kv.2) r0.fields⟩ := by
  induction xs generalizing r0 with
  | nil => rfl
  | cons kv rest ih =>
    rw [List.foldl_cons, List.foldl_cons]
    have hmem : kv.1 ∈ nonIdCols e := hcols kv (List.mem_cons_self kv rest)
    have hne : kv.1 ≠ "id" := nonIdCols_ne_id e kv.1 hmem
    have hattr : pyHasattr e kv.1 = true := by
      have hin : kv.1 ∈ modelAttrs e := by
        unfold modelAttrs
        exact List.mem_append_left _ (nonIdCols_sub_cols e kv.1 hmem)
      unfold pyHasattr
      simp only [decide_eq_true_eq]
      exact Or.inl hin
    rw [if_neg hne, if_pos hattr]
    have hstep : r0.setattrCol e kv.1 kv.2 = ⟨r0.id, setAssoc r0.fields kv.1 kv.2⟩ := by
      unfold Row.setattrCol
      rw [if_neg hne, if_pos hmem]
    rw [hstep,
      ih ⟨r0.id, setAssoc r0.fields kv.1 kv.2⟩ (fun p hp => hcols p (List.mem_cons_of_mem kv hp))]

/-- Restoring the pre-update snapshot onto the updated row yields the
original row, provided the update did not write the primary key. -/
theorem restore_roundtrip (e : String) (r : Row) (values : List (String × PyVal))
    (hwf : wfRow e r) (hnoid : ∀ kv ∈ values, kv.1 ≠ "id") :
    restoreSnapshotRow e (applyValuesRow e r values) (model_to_dict r) = r := by
  unfold restoreSnapshotRow model_to_dict
  rw [List.foldl_cons, if_pos rfl]
  have hcols : ∀ kv ∈ r.fields, kv.1 ∈ nonIdCols e := by
    intro kv hkv
    have : kv.1 ∈ r.fields.map Prod.fst := List.mem_map_of_mem Prod.fst hkv
    rw [show r.fields.map Prod.fst = nonIdCols e from hwf] at this
    exact this
  rw [restore_fold_fields e r.fields (applyValuesRow e r values) hcols]
  have hid : (applyValuesRow e r values).id = r.id := applyValuesRow_id e values r hnoid
  have hkeys : (applyValuesRow e r values).fields.map Prod.fst = r.fields.map Prod.fst :=
    applyValuesRow_keys e values r
  have hnd : (r.fields.map Prod.fst).Nodup := by
    rw [show r.fields.map Prod.fst = nonIdCols e from hwf]
    exact nonIdCols_nodup e
  have hfields :
      r.fields.foldl (fun acc (kv : String × PyVal) => setAssoc acc kv.1 kv.2)
        (applyValuesRow e r values).fields = r.fields := by
    apply assoc_ext
    · rw [fields_fold_keys, hkeys]
    · rw [fields_fold_keys, hkeys]
      exact hnd
    · intro k
      rw [fields_fold_lookup r.fields (applyValuesRow e r values).fields
        (fun kv hkv => by
          rw [hkeys]
          exact List.mem_map_of_mem Prod.fst hkv) hnd k]
      by_cases hmem : k ∈ r.fields.map Prod.fst
      · rcases lookupKey_isSome r.fields k hmem with ⟨v, hv⟩
        rw [hv]
        simp [Option.or]
      · rw [lookupKey_eq_none r.fields k hmem,
          lookupKey_eq_none (applyValuesRow e r values).fields k (by rw [hkeys]; exact hmem)]
        simp [Option.or]
  rw [hfields, hid]

-- ── Table-level lemmas for the UPDATE round trip ───────────────

theorem snapIdInt_model_to_dict (r : Row) :
    snapIdInt (model_to_dict r) = some r.id := by
  simp [snapIdInt, model_to_dict, lookupKey]

theorem restoreStep_eq_map (e : String) (t : List Row) (snap : Snapshot) :
    (match snapIdInt snap with
      | none => t
      | some rid => t.map (fun r => if r.id = rid then restoreSnapshotRow e r snap else r)) =
    t.map (restoreStepRow e snap) := by
  unfold restoreStepRow
  cases snapIdInt snap with
  | none => simp
  | some rid => rfl

theorem foldl_map_comm {α β : Type} (S : List α) (g : α → β → β) :
    ∀ (u : β → β) (T : List β),
    S.foldl (fun t s => t.map (g s)) (T.map u) =
      T.map (fun r => S.foldl (fun x s => g s x) (u r)) := by
  induction S with
  | nil => intro u T; simp
  | cons s0 rest ih =>
    intro u T
    rw [List.foldl_cons, List.map_map]
    rw [ih (g s0 ∘ u) T]
    rfl

theorem fold_restore_skip (e : String) (S : List Snapshot) (x : Row)
    (h : ∀ s ∈ S, snapIdInt s ≠ some x.id) :
    S.foldl (fun r s => restoreStepRow e s r) x = x := by
  induction S with
  | nil => rfl
  | cons s0 rest ih =>
    rw [List.foldl_cons]
    have hstep : restoreStepRow e s0 x = x := by
      unfold restoreStepRow
      cases hs : snapIdInt s0 with
      | none => rfl
      | some rid =>
        show (if x.id = rid then restoreSnapshotRow e x s0 else x) = x
        rw [if_neg]
        intro hc
        exact h s0 (List.mem_cons_self s0 rest) (by rw [hs, hc])
    rw [hstep]
    exact ih (fun s hs => h s (List.mem_cons_of_mem s0 hs))

/-- The rollback loop applied to the updated table restores the original
table exactly, provided rows are well-formed, primary keys are unique and
the update did not write the `id` column.  The fold is stated verbatim as
it appears in `rollback_execution`. -/
theorem update_restore_table (e : String) (table : List Row) (pred : Row → Bool)
    (values : List (String × PyVal))
    (hwf : ∀ r ∈ table, wfRow e r)
    (hnd : (table.map Row.id).Nodup)
    (hnoid : ∀ kv ∈ values, kv.1 ≠ "id") :
    (((table.filter pred).map model_to_dict).foldl
      (fun t snap =>
        match snapIdInt snap with
        | none => t
        | some rid => t.map (fun r => if r.id = rid then restoreSnapshotRow e r snap else r))
      (table.map (fun r => if pred r then applyValuesRow e r values else r))) = table := by
  have hsteps : (fun (t : List Row) (snap : Snapshot) =>
      match snapIdInt snap with
      | none => t
      | some rid => t.map (fun r => if r.id = rid then restoreSnapshotRow e r snap else r)) =
      fun t snap => t.map (restoreStepRow e snap) := by
    funext t snap
    exact restoreStep_eq_map e t snap
  rw [hsteps,
    foldl_map_comm ((table.filter pred).map model_to_dict)
      (fun snap r => restoreStepRow e snap r)
      (fun r => if pred r then applyValuesRow e r values else r) table]
  have hinj : ∀ x ∈ table, ∀ y ∈ table, x.id = y.id → x = y :=
    List.inj_on_of_nodup_map hnd
  have hrow : ∀ r ∈ table,
      (((table.filter pred).map model_to_dict).foldl
        (fun x s => restoreStepRow e s x)
        (if pred r then applyValuesRow e r values else r)) = r := by
    intro r hr
    by_cases hp : pred r = true
    · rw [if_pos hp]
      have hmemf : r ∈ table.filter pred := List.mem_filter.mpr ⟨hr, hp⟩
      rcases List.append_of_mem hmemf with ⟨A, B, hAB⟩
      have hndf : ((table.filter pred).map Row.id).Nodup :=
        hnd.sublist ((List.filter_sublist table).map Row.id)
      rw [hAB] at hndf
      simp only [List.map_append, List.map_cons] at hndf
      rw [List.nodup_append] at hndf
      have hA : ∀ a ∈ A, a.id ≠ r.id := by
        intro a ha hc
        exact hndf.2.2 (List.mem_map_of_mem Row.id ha) (by rw [hc]; exact List.mem_cons_self _ _)
      have hB : ∀ b ∈ B, b.id ≠ r.id := by
        intro b hb hc
        have := (List.nodup_cons.mp hndf.2.1).1
        exact this (by rw [← hc]; exact List.mem_map_of_mem Row.id hb)
      rw [hAB]
      simp only [List.map_append, List.map_cons, List.foldl_append, List.foldl_cons]
      have hidu : (applyValuesRow e r values).id = r.id := applyValuesRow_id e values r hnoid
      have hfoldA :
          (A.map model_to_dict).foldl (fun x s => restoreStepRow e s x)
            (applyValuesRow e r values) = applyValuesRow e r values := by
        apply fold_restore_skip
        intro s hs
        rcases List.mem_map.mp hs with ⟨a, ha, rfl⟩
        rw [snapIdInt_model_to_dict, hidu]
        intro hc
        exact hA a ha ((Option.some.injEq _ _).mp hc)
      rw [hfoldA]
      have hmid : restoreStepRow e (model_to_dict r) (applyValuesRow e r values) = r := by
        unfold restoreStepRow
        rw [snapIdInt_model_to_dict]
        simp only [hidu, if_pos rfl]
        exact restore_roundtrip e r values (hwf r hr) hnoid
      rw [hmid]
      apply fold_restore_skip
      intro s hs
      rcases List.mem_map.mp hs with ⟨b, hb, rfl⟩
      rw [snapIdInt_model_to_dict]
      intro hc
      exact hB b hb ((Option.some.injEq _ _).mp hc)
    · rw [if_neg hp]
      apply fold_restore_skip
      intro s hs
      rcases List.mem_map.mp hs with ⟨a, ha, rfl⟩
      rw [snapIdInt_model_to_dict]
      intro hc
      have haT : a ∈ table := List.mem_of_mem_filter ha
      have : a = r := hinj a haT r hr ((Option.some.injEq _ _).mp hc)
      rw [this] at ha
      exact hp (List.of_mem_filter ha)
  calc (table.map fun r =>
        (((table.filter pred).map model_to_dict).foldl (fun x s => restoreStepRow e s x)
          (if pred r then applyValuesRow e r values else r)))
      = table.map id := List.map_congr_left (fun r hr => hrow r hr)
    _ = table := List.map_id table

-- ── Validator characterization ─────────────────────────────────

theorem validate_foldl_char (values : List (String × PyVal))
    (c : List (String × PyVal)) (e : List String) :
    values.foldl validateStep (c, e) =
      (c ++ values.filterMap (fun kv =>
         match fieldOutcome kv.1 kv.2 with
         | none => some kv
         | some (.ok cv) => some (kv.1, cv)
         | some (.error _) => none),
       e ++ values.filterMap (fun kv =>
         match fieldOutcome kv.1 kv.2 with
         | some (.error m) => some m
         | _ => none)) := by
  induction values generalizing c e with
  | nil => simp
  | cons kv rest ih =>
    rw [List.foldl_cons]
    cases h : fieldOutcome kv.1 kv.2 with
    | none =>
      simp only [validateStep, h]
      rw [ih (c ++ [kv]) e]
      simp [h]
    | some out =>
      cases out with
      | ok cv =>
        simp only [validateStep, h]
        rw [ih (c ++ [(kv.1, cv)]) e]
        simp [h]
      | error m =>
        simp only [validateStep, h]
        rw [ih c (e ++ [m])]
        simp [h]

theorem validate_clean_keys (values : List (String × PyVal)) :
    ∀ kv ∈ (validate_field_values values).1, kv.1 ∈ keysOf values := by
  intro kv hkv
  unfold validate_field_values at hkv
  rw [validate_foldl_char values [] []] at hkv
  simp only [List.nil_append] at hkv
  rcases List.mem_filterMap.mp hkv with ⟨kv0, hkv0, hout⟩
  have : kv.1 = kv0.1 := by
    cases h : fieldOutcome kv0.1 kv0.2 with
    | none => rw [h] at hout; cases hout; rfl
    | some out =>
      cases out with
      | ok cv => rw [h] at hout; cases hout; rfl
      | error m => rw [h] at hout; cases hout
  rw [this]
  exact List.mem_map_of_mem Prod.fst hkv0

-- ── Unknown-filter-key lemmas ──────────────────────────────────

theorem filterCond_unknown (db : DBState) (e k : String) (v : PyVal)
    (h : unknownFilterKey e k) : filterCond db e k v = .ok none := by
  obtain ⟨h1, h2, h3, _⟩ := h
  rcases hsp : rsplitKey k with ⟨f, op⟩
  rw [hsp] at h1 h2 h3
  simp only at h1 h2 h3
  simp only [filterCond, hsp]
  rw [if_pos (by simp [h1]), if_neg h2, if_neg h3]

theorem apply_filters_unknown_aux (db : DBState) (e : String)
    (filters : List (String × PyVal)) (p : Row → Bool)
    (h : ∀ kv ∈ filters, unknownFilterKey e kv.1) :
    filters.foldl (applyFiltersStep db e) (.ok p) = .ok p := by
  induction filters generalizing p with
  | nil => rfl
  | cons kv rest ih =>
    rw [List.foldl_cons]
    have hstep : applyFiltersStep db e (.ok p) kv = .ok p := by
      unfold applyFiltersStep
      rw [filterCond_unknown db e kv.1 kv.2 (h kv (List.mem_cons_self kv rest))]
    rw [hstep]
    exact ih p (fun q hq => h q (List.mem_cons_of_mem kv hq))

theorem apply_filters_unknown (db : DBState) (e : String)
    (filters : List (String × PyVal))
    (h : ∀ kv ∈ filters, unknownFilterKey e kv.1) :
    apply_filters db e filters = .ok (fun _ => true) := by
  unfold apply_filters
  exact apply_filters_unknown_aux db e filters (fun _ => true) h

-- ── Store helper lemmas ────────────────────────────────────────

theorem find?_map_set (l : List (String × List Row)) (e : String) (rows : List Row)
    (hp : (l.find? (fun p => p.1 = e)).isSome = true) :
    (l.map (fun p => if p.1 = e then (e, rows) else p)).find? (fun p => p.1 = e) =
      some (e, rows) := by
  induction l with
  | nil => simp [List.find?] at hp
  | cons p0 rest ih =>
    by_cases h0 : p0.1 = e
    · simp only [List.map_cons, if_pos h0]
      rw [List.find?_cons_of_pos]
      simp
    · simp only [List.map_cons, if_neg h0]
      rw [List.find?_cons_of_neg _ (by simp [h0])] at hp
      rw [List.find?_cons_of_neg _ (by simp [h0])]
      exact ih hp

theorem tableOf_setTable_self (db : DBState) (e : String) (rows : List Row)
    (hp : (db.tables.find? (fun p => p.1 = e)).isSome = true) :
    (db.setTable e rows).tableOf e = rows := by
  unfold DBState.setTable DBState.tableOf
  simp only
  rw [find?_map_set db.tables e rows hp]

theorem find?_append_right {α : Type} (p : α → Bool) (l1 l2 : List α)
    (h : ∀ x ∈ l1, p x = false) :
    (l1 ++ l2).find? p = l2.find? p := by
  rw [List.find?_append]
  rw [List.find?_eq_none.mpr (fun x hx => by simp [h x hx])]
  rfl

theorem map_update_id {α : Type} (l : List α) (q : α → Bool) (f : α → α)
    (h : ∀ x ∈ l, q x = false) :
    l.map (fun x => if q x then f x else x) = l := by
  calc l.map (fun x => if q x then f x else x) = l.map id :=
        List.map_congr_left (fun x hx => by rw [h x hx]; rfl)
    _ = l := List.map_id l

theorem map_update_id_prop {α : Type} (l : List α) (q : α → Prop) [DecidablePred q]
    (f : α → α) (h : ∀ x ∈ l, ¬ q x) :
    (l.map fun x => if q x then f x else x) = l := by
  calc (l.map fun x => if q x then f x else x) = l.map id :=
        List.map_congr_left (fun x hx => by rw [if_neg (h x hx)]; rfl)
    _ = l := List.map_id l

theorem tableOf_tables_eq (db1 db2 : DBState) (h : db1.tables = db2.tables)
    (e : String) : db1.tableOf e = db2.tableOf e := by
  unfold DBState.tableOf
  rw [h]

theorem filterCond_tables_eq (db1 db2 : DBState) (h : db1.tables = db2.tables)
    (e k : String) (v : PyVal) : filterCond db1 e k v = filterCond db2 e k v := by
  unfold filterCond
  rw [tableOf_tables_eq db1 db2 h "student", tableOf_tables_eq db1 db2 h "department"]

theorem applyFiltersStep_tables_eq (db1 db2 : DBState) (h : db1.tables = db2.tables)
    (e : String) (acc : Except String (Row → Bool)) (kv : String × PyVal) :
    applyFiltersStep db1 e acc kv = applyFiltersStep db2 e acc kv := by
  unfold applyFiltersStep
  rw [filterCond_tables_eq db1 db2 h e kv.1 kv.2]

theorem apply_filters_tables_eq (db1 db2 : DBState) (h : db1.tables = db2.tables)
    (e : String) (fs : List (String × PyVal)) :
    apply_filters db1 e fs = apply_filters db2 e fs := by
  unfold apply_filters
  rw [show applyFiltersStep db1 e = applyFiltersStep db2 e from
    funext fun acc => funext fun kv => applyFiltersStep_tables_eq db1 db2 h e acc kv]

theorem apply_filters_w2 (db : DBState) (P1 : List PlanRec) (E1 : List ExecRec)
    (e : String) (fs : List (String × PyVal)) :
    apply_filters ⟨db.tables, P1, E1, db.audits⟩ e fs = apply_filters db e fs :=
  apply_filters_tables_eq _ _ rfl e fs

theorem tableOf_w2 (db : DBState) (P1 : List PlanRec) (E1 : List ExecRec)
    (e : String) :
    (DBState.mk db.tables P1 E1 db.audits).tableOf e = db.tableOf e :=
  tableOf_tables_eq _ _ rfl e

theorem tableOf_append_w2 (db : DBState) (p1 : PlanRec) (x1 : ExecRec)
    (e : String) :
    (DBState.mk db.tables (db.plans ++ [p1]) (db.executions ++ [x1])
      db.audits).tableOf e = db.tableOf e :=
  tableOf_tables_eq _ _ rfl e

theorem tableOf_mk_map (ts : List (String × List Row)) (P : List PlanRec)
    (E : List ExecRec) (A : List AuditRec) (e : String) (rows : List Row)
    (hp : (ts.find? (fun p => p.1 = e)).isSome = true) :
    (DBState.mk (ts.map (fun p => if p.1 = e then (e, rows) else p)) P E A).tableOf e
      = rows := by
  unfold DBState.tableOf
  rw [find?_map_set ts e rows hp]

theorem find?_map_set_isSome (l : List (String × List Row)) (e : String)
    (rows : List Row) (hp : (l.find? (fun p => p.1 = e)).isSome = true) :
    ((l.map (fun p => if p.1 = e then (e, rows) else p)).find?
      (fun p => p.1 = e)).isSome = true := by
  rw [find?_map_set l e rows hp]
  rfl

-- ── Claim theorems ─────────────────────────────────────────────

/-- C2: the claim states that for every CREATE or UPDATE intent on an
entity other than `user`, `_classify_risk` returns HIGH when the impact
count exceeds the configured threshold and MEDIUM otherwise, and is total.
The code contradicts its own tests: `Settings` (`app/core/config.py`)
declares no `RISK_HIGH_IMPACT_COUNT` attribute, so every such call raises
`AttributeError` instead of returning a risk level, while the repository's
`tests/test_risk_classification.py` expects MEDIUM at 50 and HIGH at 51+.
This theorem shows the uncaught error under the shipped settings for every
CREATE/UPDATE on a non-`user` entity, and that the claimed HIGH/MEDIUM
split does hold once the attribute is configured (threshold 50, the value
the tests assume). -/
theorem c2_classifier_not_total_with_shipped_settings :
    (∀ (entity : String) (impact : Int) (fields : List String), entity ≠ "user" →
      classify_risk configSettings.RISK_HIGH_IMPACT_COUNT "UPDATE" entity impact fields =
        .error "AttributeError: RISK_HIGH_IMPACT_COUNT" ∧
      classify_risk configSettings.RISK_HIGH_IMPACT_COUNT "CREATE" entity impact fields =
        .error "AttributeError: RISK_HIGH_IMPACT_COUNT") ∧
    classify_risk (some 50) "UPDATE" "student" 5 ["semester"] = .ok "MEDIUM" ∧
    classify_risk (some 50) "UPDATE" "student" 50 ["semester"] = .ok "MEDIUM" ∧
    classify_risk (some 50) "UPDATE" "student" 60 ["semester"] = .ok "HIGH" ∧
    classify_risk (some 50) "CREATE" "course" 51 [] = .ok "HIGH" := by
  refine ⟨?_, by decide, by decide, by decide, by decide⟩
  intro entity impact fields hne
  constructor <;> simp [classify_risk, configSettings, hne]

/-- C2 witness: the classifier raises at the concrete input the tests
exercise (`_classify_risk("UPDATE", "student", 5)`). -/
theorem c2_witness :
    classify_risk configSettings.RISK_HIGH_IMPACT_COUNT "UPDATE" "student" 5 ["semester"] =
      .error "AttributeError: RISK_HIGH_IMPACT_COUNT" :=
  (c2_classifier_not_total_with_shipped_settings.1 "student" 5 ["semester"] (by decide)).1

/-- C4 counterexample: an UPDATE touching the compensation fields
`gross_salary`/`net_salary` with impact 1 is classified MEDIUM (with the
threshold configured at 50), not HIGH as the claim requires; under the
shipped settings the same call raises instead of returning HIGH. -/
theorem c4_counterexample_sensitive_fields_not_high :
    classify_risk (some 50) "UPDATE" "salary_record" 1 ["gross_salary", "net_salary"] =
      .ok "MEDIUM" ∧
    classify_risk configSettings.RISK_HIGH_IMPACT_COUNT "UPDATE" "salary_record" 1
      ["gross_salary"] = .error "AttributeError: RISK_HIGH_IMPACT_COUNT" ∧
    (Except.ok "MEDIUM" : Except String String) ≠ .ok "HIGH" := by decide

/-- C4 (amended): `_classify_risk` accepts its `fields` argument and never
reads it — two calls differing only in the touched-field list return
identical results, so no designated sensitive-field set exists and a write
touching `gross_salary` or `net_salary` is classified exactly like any
other CREATE/UPDATE. -/
theorem c4_classifier_ignores_fields (thr : Option Int) (intent entity : String)
    (impact : Int) (fs gs : List String) :
    classify_risk thr intent entity impact fs =
      classify_risk thr intent entity impact gs := rfl

/-- C7 counterexample: validating `cgpa = 15.0` produces the error entry
`"cgpa: must be <= 10.0"` — Python interpolates the float bound `10.0` —
not the claimed `"cgpa: must be <= 10"`. -/
theorem c7_counterexample_error_message :
    (validate_field_values [("cgpa", .vfloat ⟨15, 0⟩)]).2 = ["cgpa: must be <= 10.0"] ∧
    ¬ ("cgpa: must be <= 10" ∈ (validate_field_values [("cgpa", .vfloat ⟨15, 0⟩)]).2) := by
  decide

/-- C7 (amended): `_validate_field_values` is a per-key map with no
short-circuiting — `clean_values` collects every rule-less key unchanged
and every coerced in-range value, and `errors` collects one entry per
violating key, exactly as given by the single-field outcome function; in
particular a `cgpa` of 15.0 yields the entry `"cgpa: must be <= 10.0"`
(the claim's `"cgpa: must be <= 10"` amended to the float rendering),
while an in-range 9.5 is coerced and kept. -/
theorem c7_validator_collects_all_errors (values : List (String × PyVal)) :
    (validate_field_values values).1 = values.filterMap (fun kv =>
      match fieldOutcome kv.1 kv.2 with
      | none => some kv
      | some (.ok cv) => some (kv.1, cv)
      | some (.error _) => none) ∧
    (validate_field_values values).2 = values.filterMap (fun kv =>
      match fieldOutcome kv.1 kv.2 with
      | some (.error m) => some m
      | _ => none) ∧
    fieldOutcome "cgpa" (.vfloat ⟨15, 0⟩) = some (.error "cgpa: must be <= 10.0") ∧
    fieldOutcome "cgpa" (.vfloat ⟨95, 1⟩) = some (.ok (.vfloat ⟨95, 1⟩)) ∧
    fieldOutcome "unknown_extra_key" (.vstr "kept") = none := by
  refine ⟨?_, ?_, by decide, by decide, by decide⟩ <;>
    · unfold validate_field_values
      rw [validate_foldl_char values [] []]
      simp

/-- C5 counterexample: with two departments whose lowered names both
contain the requested name fragment, the `scalar_one_or_none()` inside
`_resolve_department_filter` raises `MultipleResultsFound`, so for a
student UPDATE on the `student` entity (which passes the role matrix) the
gate propagates an exception instead of returning `allowed = false` with a
stable reason code. -/
theorem c5_counterexample_gate_raises :
    permission_gate worldTwoDepts.db studentUser "UPDATE" "student"
      [("department", .vstr "science")] = .error "MultipleResultsFound" ∧
    permission_gate worldTwoDepts.db studentUser "UPDATE" "student"
      [("department", .vstr "science")] ≠ .ok (false, "ROLE_RESTRICTED") ∧
    permission_gate worldTwoDepts.db studentUser "UPDATE" "student"
      [("department", .vstr "science")] ≠ .ok (false, "DEPARTMENT_SCOPE_RESTRICTED") ∧
    permission_gate worldTwoDepts.db studentUser "UPDATE" "student"
      [("department", .vstr "science")] ≠ .ok (false, "STUDENT_WRITE_RESTRICTED") := by
  decide

/-- C5 (amended): for every student actor, entity and filter map,
`_permission_gate` never allows CREATE/UPDATE/DELETE — whenever it returns
at all (the department lookups not raising), it returns `allowed = false`
with one of the stable reason codes `ROLE_RESTRICTED`,
`DEPARTMENT_SCOPE_RESTRICTED` or `STUDENT_WRITE_RESTRICTED`; when the
filters' department name matches several Department rows the gate instead
propagates `MultipleResultsFound`, still never allowing the write. -/
theorem c5_student_writes_never_allowed (db : DBState) (user : UserRec)
    (intent entity : String) (filters : List (String × PyVal))
    (hrole : user.role = "student")
    (hintent : intent = "CREATE" ∨ intent = "UPDATE" ∨ intent = "DELETE") :
    ∀ al reason, permission_gate db user intent entity filters = .ok (al, reason) →
      al = false ∧ (reason = "ROLE_RESTRICTED" ∨ reason = "DEPARTMENT_SCOPE_RESTRICTED" ∨
        reason = "STUDENT_WRITE_RESTRICTED") := by
  intro al reason hgate
  unfold permission_gate at hgate
  by_cases hall : is_allowed user.role intent entity = true
  · rw [if_neg (by simp [hall])] at hgate
    cases husr : user_department_scope db user with
    | error err => rw [husr] at hgate; cases hgate
    | ok ud =>
      rw [husr] at hgate
      dsimp only at hgate
      cases hres : resolve_department_filter db filters with
      | error err => rw [hres] at hgate; cases hgate
      | ok td =>
        rw [hres] at hgate
        dsimp only at hgate
        by_cases hdept : ((user.role = "student" ∨ user.role = "faculty") ∧
            truthyOpt td = true ∧ truthyOpt ud = true ∧ pyNeOpt td ud = true)
        · rw [if_pos hdept] at hgate
          cases hgate
          exact ⟨rfl, Or.inr (Or.inl rfl)⟩
        · rw [if_neg hdept] at hgate
          have hwr : user.role = "student" ∧
              (intent = "UPDATE" ∨ intent = "DELETE" ∨ intent = "CREATE") := by
            refine ⟨hrole, ?_⟩
            rcases hintent with h | h | h
            · exact Or.inr (Or.inr h)
            · exact Or.inl h
            · exact Or.inr (Or.inl h)
          rw [if_pos hwr] at hgate
          cases hgate
          exact ⟨rfl, Or.inr (Or.inr rfl)⟩
  · rw [if_pos hall] at hgate
    cases hgate
    exact ⟨rfl, Or.inl rfl⟩

/-- C5 witness: the blanket denial applied at a concrete input — a student
DELETE on `course` is denied with the `ROLE_RESTRICTED` code. -/
theorem c5_witness :
    false = false ∧ ("ROLE_RESTRICTED" = "ROLE_RESTRICTED" ∨
      "ROLE_RESTRICTED" = "DEPARTMENT_SCOPE_RESTRICTED" ∨
      "ROLE_RESTRICTED" = "STUDENT_WRITE_RESTRICTED") :=
  c5_student_writes_never_allowed worldOneStudent.db studentUser "DELETE" "course" []
    rfl (Or.inr (Or.inr rfl)) false "ROLE_RESTRICTED" (by decide)

/-- C10: the `DEPARTMENT_SCOPE_RESTRICTED` denial fires exactly when the
role matrix admits the pair, the caller is a student or faculty member,
and both the scope lookup and the filter resolution return truthy
(non-null, non-zero) department values that differ under Python `!=`; if
either resolution returns `None` (no matching Department row, or no
Student/Faculty profile row), the scope check is skipped and the request
proceeds subject only to the role matrix and the student write ban. -/
theorem c10_department_scope_characterization (db : DBState) (user : UserRec)
    (intent entity : String) (filters : List (String × PyVal)) :
    (permission_gate db user intent entity filters =
        .ok (false, "DEPARTMENT_SCOPE_RESTRICTED") ↔
      is_allowed user.role intent entity = true ∧
      (∃ ud td, user_department_scope db user = .ok ud ∧
        resolve_department_filter db filters = .ok td ∧
        (user.role = "student" ∨ user.role = "faculty") ∧
        truthyOpt td = true ∧ truthyOpt ud = true ∧ pyNeOpt td ud = true)) ∧
    (∀ ud td, user_department_scope db user = .ok ud →
      resolve_department_filter db filters = .ok td →
      (td = none ∨ ud = none) →
      is_allowed user.role intent entity = true →
      ¬ (user.role = "student" ∧ (intent = "UPDATE" ∨ intent = "DELETE" ∨ intent = "CREATE")) →
      permission_gate db user intent entity filters = .ok (true, "OK")) := by
  constructor
  · constructor
    · intro hgate
      unfold permission_gate at hgate
      by_cases hall : is_allowed user.role intent entity = true
      · rw [if_neg (by simp [hall])] at hgate
        refine ⟨hall, ?_⟩
        cases husr : user_department_scope db user with
        | error err => rw [husr] at hgate; cases hgate
        | ok ud =>
          rw [husr] at hgate
          dsimp only at hgate
          cases hres : resolve_department_filter db filters with
          | error err => rw [hres] at hgate; cases hgate
          | ok td =>
            rw [hres] at hgate
            dsimp only at hgate
            by_cases hdept : ((user.role = "student" ∨ user.role = "faculty") ∧
                truthyOpt td = true ∧ truthyOpt ud = true ∧ pyNeOpt td ud = true)
            · exact ⟨ud, td, rfl, rfl, hdept.1, hdept.2.1, hdept.2.2.1, hdept.2.2.2⟩
            · rw [if_neg hdept] at hgate
              by_cases hwr : (user.role = "student" ∧
                  (intent = "UPDATE" ∨ intent = "DELETE" ∨ intent = "CREATE"))
              · rw [if_pos hwr] at hgate
                exact absurd hgate (by decide)
              · rw [if_neg hwr] at hgate
                exact absurd hgate (by decide)
      · rw [if_pos hall] at hgate
        exact absurd hgate (by decide)
    · rintro ⟨hall, ud, td, husr, hres, hrole2, htd, hud, hne⟩
      unfold permission_gate
      rw [if_neg (by simp [hall]), husr]
      dsimp only
      rw [hres]
      dsimp only
      rw [if_pos (⟨hrole2, htd, hud, hne⟩ : (user.role = "student" ∨ user.role = "faculty") ∧
          truthyOpt td = true ∧ truthyOpt ud = true ∧ pyNeOpt td ud = true)]
  · intro ud td husr hres hnone hall hwr
    unfold permission_gate
    rw [if_neg (by simp [hall]), husr]
    dsimp only
    rw [hres]
    dsimp only
    rw [if_neg, if_neg hwr]
    rintro ⟨-, htd, hud, -⟩
    rcases hnone with h | h
    · rw [h] at htd; cases htd
    · rw [h] at hud; cases hud

/-- C10 witness: a faculty member of department 1 filtering on
`department_id = 2` is denied with the scope code (via the
characterization), and with no department filter the same request
proceeds. -/
theorem c10_witness :
    permission_gate worldFaculty.db facultyUser "UPDATE" "student"
      [("department_id", .vint 2)] = .ok (false, "DEPARTMENT_SCOPE_RESTRICTED") ∧
    permission_gate worldFaculty.db facultyUser "UPDATE" "student" [] = .ok (true, "OK") :=
  ⟨(c10_department_scope_characterization worldFaculty.db facultyUser "UPDATE" "student"
      [("department_id", .vint 2)]).1.mpr
    ⟨by decide, some (.vint 1), some (.vint 2), by decide, by decide,
      Or.inr rfl, by decide, by decide, by decide⟩,
   (c10_department_scope_characterization worldFaculty.db facultyUser "UPDATE" "student"
      []).2 (some (.vint 1)) none (by decide) (by decide) (Or.inl rfl) (by decide)
      (by simp [facultyUser])⟩

/-- C8: for every non-admin caller, every event returned by
`get_audit_history` carries the caller's own `user_id` regardless of the
module/operation/risk/actor/date filters supplied; in particular
requesting another (real, nonzero) user's `actor_user_id` returns the
empty list, because that filter and the forced own-`user_id` condition are
conjoined. -/
theorem c8_nonadmin_history_scoped (db : DBState) (user : UserRec)
    (module operation_type risk_level : Option String) (actor_user_id : Option Int)
    (start_date end_date : Option Nat) (limit : Nat)
    (hrole : user.role ≠ "admin") :
    (∀ ev ∈ get_audit_history db user module operation_type risk_level actor_user_id
        start_date end_date limit, ev.user_id = user.id) ∧
    (∀ a, actor_user_id = some a → a ≠ 0 → a ≠ user.id →
      get_audit_history db user module operation_type risk_level actor_user_id
        start_date end_date limit = []) := by
  constructor
  · intro ev hev
    unfold get_audit_history at hev
    dsimp only at hev
    replace hev := List.mem_of_mem_take hev
    replace hev := (List.perm_insertionSort _ _).mem_iff.mp hev
    replace hev := (List.mem_filter.mp hev).2
    rw [if_pos hrole] at hev
    simp only [List.all_append, Bool.and_eq_true, List.all_cons, List.all_nil,
      Bool.and_true] at hev
    exact beq_iff_eq.mp hev.2
  · intro a ha h0 hne
    unfold get_audit_history
    rw [ha]
    dsimp only
    rw [if_pos h0, if_pos hrole]
    have hrows : ∀ (l : List AuditRec) (c1 c2 c3 c5 c6 : List (AuditRec → Bool)),
        l.filter (fun ev => List.all
          (c1 ++ c2 ++ c3 ++ [fun x => x.user_id == a] ++ c5 ++ c6 ++
            [fun x => x.user_id == user.id]) (fun c => c ev)) = [] := by
      intro l c1 c2 c3 c5 c6
      apply List.filter_eq_nil_iff.mpr
      intro ev _ hc
      simp only [List.all_append, Bool.and_eq_true, List.all_cons, List.all_nil,
        Bool.and_true] at hc
      have hA : ev.user_id = a := beq_iff_eq.mp hc.1.1.1.2
      have hU : ev.user_id = user.id := beq_iff_eq.mp hc.2
      exact hne (hA ▸ hU)
    rw [hrows db.audits _ _ _ _ _]
    simp [List.insertionSort]

/-- C8 witness: a faculty caller (id 7) requesting another user's events
(actor id 3) receives the empty list. -/
theorem c8_witness :
    get_audit_history dbAudit facultyUser none none none (some 3) none none 100 = [] :=
  (c8_nonadmin_history_scoped dbAudit facultyUser none none none (some 3) none none 100
    (by decide)).2 3 rfl (by decide) (by decide)

/-- C9 counterexample: the filter key `user` is not a column of the
`student` model and is not a special-cased join field, so the claim says
it is silently dropped and a DELETE filtered only by it deletes every row;
in fact `user` is a mapped relationship attribute, `hasattr` succeeds, and
comparing the relationship to the plain value 1 raises while the statement
is built — the key is not dropped and nothing is selected or deleted. -/
theorem c9_counterexample_relationship_key :
    (("user" ∈ modelColumns "student") = False) ∧
    ((rsplitKey "user").1 = "user") ∧
    apply_filters worldTwoStudents.db "student" [("user", .vint 1)] =
      .error "RELATIONSHIP_COMPARISON" ∧
    perform_mutation worldTwoStudents.db "DELETE" "student" [("user", .vint 1)] [] =
      .error ("RELATIONSHIP_COMPARISON", [], []) := by
  refine ⟨by simp [modelColumns], by decide, ?_, ?_⟩
  · show List.foldl (applyFiltersStep worldTwoStudents.db "student")
      (.ok (fun _ => true)) [("user", .vint 1)] = .error "RELATIONSHIP_COMPARISON"
    rfl
  · unfold perform_mutation
    rw [show apply_filters worldTwoStudents.db "student" [("user", .vint 1)] =
      .error "RELATIONSHIP_COMPARISON" from rfl]

/-- C9 (amended): a filter key that, after stripping a recognized operator
suffix, names no mapped attribute of the target model (neither a column
nor a relationship; underscore-prefixed class-machinery names excluded)
and is not a special-cased join field contributes no `WHERE` condition and
is silently dropped; consequently an UPDATE or DELETE whose filters hold
only such keys selects every row — DELETE empties the table and UPDATE,
when its values name no relationship attribute (a relationship-named
value aborts the mutation instead), applies its values to every row.
(The `department` special case on student/faculty/course is unreachable:
those models all carry a `department` relationship attribute, and a key
naming a relationship is not dropped but raises.) -/
theorem c9_unknown_keys_select_all (db : DBState) (entity : String)
    (filters values : List (String × PyVal))
    (_hent : entity ∈ registryEntities)
    (hkeys : ∀ kv ∈ filters, unknownFilterKey entity kv.1)
    (hvals : ∀ kv ∈ values, ¬ kv.1 ∈ modelRelationshipAttrs entity) :
    apply_filters db entity filters = .ok (fun _ => true) ∧
    perform_mutation db "DELETE" entity filters values =
      .ok ⟨db.setTable entity [], (db.tableOf entity).map model_to_dict, [], none⟩ ∧
    perform_mutation db "UPDATE" entity filters values =
      .ok ⟨db.setTable entity ((db.tableOf entity).map
            (fun r => applyValuesRow entity r values)),
          (db.tableOf entity).map model_to_dict,
          ((db.tableOf entity).map (fun r => applyValuesRow entity r values)).map
            model_to_dict, none⟩ := by
  have hflt := apply_filters_unknown db entity filters hkeys
  refine ⟨hflt, ?_, ?_⟩
  · unfold perform_mutation
    rw [hflt]
    dsimp only
    rw [if_neg (by decide), if_neg (by decide), if_neg (by decide), if_neg (by decide),
      if_pos rfl]
    rw [List.filter_true]
    simp
  · unfold perform_mutation
    rw [hflt]
    dsimp only
    rw [if_neg (by decide), if_neg (by decide), if_neg (by decide), if_pos rfl]
    rw [List.filter_true]
    rw [mapM_applyValuesRowE entity (db.tableOf entity) values hvals]
    simp

/-- C9 witness: with two student rows and filters holding only unknown
keys, the DELETE mutation phase empties the table and snapshots both rows
(instance of the amended claim). -/
theorem c9_witness :
    perform_mutation worldTwoStudents.db "DELETE" "student"
      [("foo", .vint 1), ("bar__lte", .vstr "x")] [("semester", .vint 6)] =
    .ok ⟨worldTwoStudents.db.setTable "student" [],
         (worldTwoStudents.db.tableOf "student").map model_to_dict, [], none⟩ :=
  (c9_unknown_keys_select_all worldTwoStudents.db "student"
    [("foo", .vint 1), ("bar__lte", .vstr "x")] [("semester", .vint 6)]
    (by decide) (by decide) (by decide)).2.1

set_option synthInstance.maxSize 4096 in
/-- C3: a store-level exception inside the transactional mutation phase (a
CREATE whose values hold an invalid constructor keyword) is caught: the
call returns status `failed` with the error text instead of propagating,
the transaction rollback leaves the entity tables untouched, and exactly
one audit event of type `failed` is written.  But the claim's "marks both
the persisted Plan row and Execution row with status `failed`, persists
the error in failure_state" does not happen: `db.rollback()` also undoes
the uncommitted Plan/Execution inserts, the re-fetch finds nothing, and
the store retains NO Plan row and NO Execution row at all — shown here by
the empty `plans` and `executions` after the failure. -/
theorem c3_failure_rolls_back_but_marks_nothing :
    (create_and_execute settingsWith50 worldOneStudent adminUser "nlp"
        bogusCreatePayload).map
      (fun pr => (pr.2.status, pr.2.error, pr.1.db.plans, pr.1.db.executions,
                  pr.1.db.audits.map (fun a => a.event_type), pr.1.db.tables)) =
    .ok ("failed", some "TypeError: invalid keyword argument", [], [],
         ["failed"], worldOneStudent.db.tables) := by decide

/-- C6: whenever the extracted confidence is strictly below
`OPS_CONFIDENCE_THRESHOLD`, `create_and_execute` returns status
`clarification_needed` carrying the clarifying question (when the payload
has a non-empty one) and the confidence, appends exactly one audit event
of type `clarification_needed`, and leaves the Plan and Execution tables
untouched. -/
theorem c6_low_confidence_clarifies (S : OpsSettings) (w : World) (user : UserRec)
    (module : String) (payload : IntentPayload)
    (hconf : PFloat.ltB payload.confidence S.OPS_CONFIDENCE_THRESHOLD = true) :
    ∃ w1 res, create_and_execute S w user module payload = .ok (w1, res) ∧
      res.status = "clarification_needed" ∧
      res.confidence = some payload.confidence ∧
      (∀ q, payload.ambiguityQuestion = some q → q ≠ "" → res.message = q) ∧
      w1.db.plans = w.db.plans ∧
      w1.db.executions = w.db.executions ∧
      w1.db.tables = w.db.tables ∧
      (∃ ev, w1.db.audits = w.db.audits ++ [ev] ∧
        ev.event_type = "clarification_needed" ∧
        ev.operation_type = strUpper payload.intent ∧
        ev.user_id = user.id ∧ ev.role = user.role) := by
  have heq : create_and_execute S w user module payload =
      .ok (auditAppend w none none user.id user.role module
            (strUpper payload.intent) "clarification_needed" "LOW" [] [],
          { emptyResult "clarification_needed" with
            message := questionOr payload.ambiguityQuestion,
            confidence := some payload.confidence }) := by
    unfold create_and_execute
    rw [if_pos hconf]
  refine ⟨_, _, heq, rfl, rfl, ?_, rfl, rfl, rfl, ?_⟩
  · intro q hq hne
    show questionOr payload.ambiguityQuestion = q
    rw [hq]; dsimp only [questionOr]
    rw [if_pos hne]
  · exact ⟨_, rfl, rfl, rfl, rfl, rfl⟩

/-- C6 witness: the low-confidence payload (confidence 0.41 < 0.75 under
the shipped settings) yields the clarification status. -/
theorem c6_witness :
    (create_and_execute configSettings worldOneStudent adminUser "nlp"
      vaguePayload).map (fun pr => pr.2.status) = .ok "clarification_needed" := by
  obtain ⟨w1, res, heq, hstat, -⟩ :=
    c6_low_confidence_clarifies configSettings worldOneStudent adminUser "nlp"
      vaguePayload (by decide)
  rw [heq, Except.map, hstat]

/-- C1 (amended): the round-trip law for UPDATE rollback holds provided
the update's values do not write the `id` column.  Whenever a request
passes every gate of `create_and_execute` (confidence at or above the
threshold, permission granted, validation clean, filters and risk
classification succeeding), the intent is UPDATE, the entity table is
well-formed, the generated plan/execution ids are fresh, no value key is
`id`, and no value key names a mapped relationship attribute (such a key
passes validation but makes the value loop raise, so the request ends
`failed` instead of `executed`), the request executes; a subsequent
`rollback_execution` on the recorded execution id succeeds with status
`rolled_back`, the entity table returns exactly to its pre-update
contents, and every snapshot recorded in `before_state` is again the
exact image of the current row carrying its id.  (Without the
no-`id`-write proviso the law fails; see the counterexample.) -/
theorem c1_update_rollback_restores (S : OpsSettings) (w : World) (user : UserRec)
    (module : String) (payload : IntentPayload)
    (entity reason risk : String) (pred : Row → Bool)
    (values : List (String × PyVal))
    (hent : normalize_entity payload.entity = entity)
    (hintent : strUpper payload.intent = "UPDATE")
    (hconf : PFloat.ltB payload.confidence S.OPS_CONFIDENCE_THRESHOLD = false)
    (hgate : permission_gate w.db user "UPDATE" entity payload.filters =
      .ok (true, reason))
    (hnonempty : payload.values.isEmpty = false)
    (hvals : validate_field_values payload.values = (values, []))
    (happ : apply_filters w.db entity payload.filters = .ok pred)
    (hrisk : classify_risk S.RISK_HIGH_IMPACT_COUNT "UPDATE" entity
      (((w.db.tableOf entity).filter pred).length : Int)
      (if payload.affected_fields.isEmpty then keysOf payload.values
        else payload.affected_fields) = .ok risk)
    (hwf : wfEntityTable w.db entity)
    (hnoid : ∀ k ∈ keysOf payload.values, k ≠ "id")
    (hrel : ∀ k ∈ keysOf payload.values, ¬ k ∈ modelRelationshipAttrs entity)
    (hfreshE : ∀ x ∈ w.db.executions,
      ¬ x.execution_id = "exec_" ++ toString (w.nextId + 1))
    (hfreshP : ∀ p ∈ w.db.plans, ¬ p.plan_id = "ops_" ++ toString w.nextId) :
    ∃ w1 res,
      create_and_execute S w user module payload = .ok (w1, res) ∧
      res.status = "executed" ∧
      res.execution_id = some ("exec_" ++ toString (w.nextId + 1)) ∧
      res.before_state = ((w.db.tableOf entity).filter pred).map model_to_dict ∧
      (rollback_execution w1 user
        ("exec_" ++ toString (w.nextId + 1))).2.status = "rolled_back" ∧
      (rollback_execution w1 user
        ("exec_" ++ toString (w.nextId + 1))).1.db.tableOf entity =
        w.db.tableOf entity ∧
      (∀ snap ∈ res.before_state,
        ∃ r ∈ (rollback_execution w1 user
          ("exec_" ++ toString (w.nextId + 1))).1.db.tableOf entity,
          snapIdInt snap = some r.id ∧ model_to_dict r = snap) := by
  have hnoidv : ∀ kv ∈ values, kv.1 ≠ "id" := by
    intro kv hkv
    have h1 : kv ∈ (validate_field_values payload.values).1 := by
      rw [hvals]; exact hkv
    exact hnoid kv.1 (validate_clean_keys payload.values kv h1)
  have hrelv : ∀ kv ∈ values, ¬ kv.1 ∈ modelRelationshipAttrs entity := by
    intro kv hkv
    have h1 : kv ∈ (validate_field_values payload.values).1 := by
      rw [hvals]; exact hkv
    exact hrel kv.1 (validate_clean_keys payload.values kv h1)
  refine ⟨auditAppend
      ⟨⟨w.db.tables.map (fun q => if q.1 = entity then (entity,
          (w.db.tableOf entity).map
            (fun r => if pred r then applyValuesRow entity r values else r)) else q),
        (w.db.plans ++ [(⟨"ops_" ++ toString w.nextId, user.id, module, "UPDATE",
          entity, payload.filters,
          (if payload.affected_fields.isEmpty then keysOf payload.values
            else payload.affected_fields),
          values, payload.confidence, risk,
          (((w.db.tableOf entity).filter pred).length : Int),
          "executing"⟩ : PlanRec)]).map
          (fun p => if p.plan_id = "ops_" ++ toString w.nextId then
            { p with status := "executed" } else p),
        (w.db.executions ++ [(⟨"exec_" ++ toString (w.nextId + 1),
          "ops_" ++ toString w.nextId, user.id, "pending", [], [], none,
          false⟩ : ExecRec)]).map
          (fun x => if x.execution_id = "exec_" ++ toString (w.nextId + 1) then
            { x with
              status := "executed",
              before_state := ((w.db.tableOf entity).filter pred).map model_to_dict,
              after_state := (((w.db.tableOf entity).filter pred).map
                (fun r => applyValuesRow entity r values)).map model_to_dict }
            else x),
        w.db.audits⟩, w.nextId + 2⟩
      (some ("ops_" ++ toString w.nextId)) (some ("exec_" ++ toString (w.nextId + 1)))
      user.id user.role module "UPDATE" "executed" risk
      (((w.db.tableOf entity).filter pred).map model_to_dict)
      ((((w.db.tableOf entity).filter pred).map
        (fun r => applyValuesRow entity r values)).map model_to_dict),
    { emptyResult "executed" with
      plan_id := some ("ops_" ++ toString w.nextId),
      execution_id := some ("exec_" ++ toString (w.nextId + 1)),
      intent := some "UPDATE", entity := some entity, risk_level := some risk,
      affected_count :=
        some ((((w.db.tableOf entity).filter pred).map model_to_dict).length : Int),
      before_state := ((w.db.tableOf entity).filter pred).map model_to_dict,
      after_state := (((w.db.tableOf entity).filter pred).map
        (fun r => applyValuesRow entity r values)).map model_to_dict,
      message := human_summary "UPDATE" entity
        ((((w.db.tableOf entity).filter pred).map model_to_dict).length : Int),
      confidence := some payload.confidence },
    ?_, rfl, rfl, rfl, ?_⟩
  · -- the pipeline reaches the executed UPDATE branch
    simp only [create_and_execute]
    rw [hintent, hent, hconf, hgate]
    dsimp only
    rw [if_pos (show ¬ payload.values.isEmpty = true ∧
        (("UPDATE" : String) = "CREATE" ∨ ("UPDATE" : String) = "UPDATE") from
      ⟨by simp [hnonempty], Or.inr rfl⟩)]
    rw [hvals]
    rw [happ]
    dsimp only
    rw [hrisk]
    dsimp only
    simp only [perform_mutation]
    rw [apply_filters_w2 w.db _ _ entity payload.filters, happ]
    dsimp only
    rw [tableOf_append_w2 w.db _ _ entity]
    rw [mapM_applyValuesRowE entity ((w.db.tableOf entity).filter pred) values hrelv]
    rfl
  · -- the rollback restores the table
    simp only [rollback_execution, auditAppend, DBState.setTable]
    rw [List.map_append, List.map_append]
    rw [map_update_id_prop w.db.executions _ _ hfreshE]
    rw [map_update_id_prop w.db.plans _ _ hfreshP]
    simp only [List.map_cons, List.map_nil]
    rw [if_pos trivial, if_pos trivial]
    rw [find?_append_right _ _ _
      (fun x hx => decide_eq_false (hfreshE x hx) :
        ∀ x ∈ w.db.executions,
          decide (x.execution_id = "exec_" ++ toString (w.nextId + 1)) = false)]
    rw [List.find?_cons_of_pos _ (by exact decide_eq_true rfl)]
    dsimp only
    rw [find?_append_right _ _ _
      (fun p hp => decide_eq_false (hfreshP p hp) :
        ∀ p ∈ w.db.plans,
          decide (p.plan_id = "ops_" ++ toString w.nextId) = false)]
    rw [List.find?_cons_of_pos _ (by exact decide_eq_true rfl)]
    dsimp only
    rw [if_neg (fun h => h.2 rfl)]
    rw [if_neg (fun h => h rfl)]
    rw [if_neg (show ¬ ("UPDATE" : String) = "CREATE" by decide)]
    rw [if_pos (show ("UPDATE" : String) = "UPDATE" from rfl)]
    rw [tableOf_mk_map _ _ _ _ _ _ hwf.1]
    rw [update_restore_table entity (w.db.tableOf entity) pred values
      hwf.2.1 hwf.2.2 hnoidv]
    dsimp only
    refine ⟨rfl, ?_, ?_⟩
    · rw [tableOf_mk_map _ _ _ _ _ _ (find?_map_set_isSome _ _ _ hwf.1)]
    · rw [tableOf_mk_map _ _ _ _ _ _ (find?_map_set_isSome _ _ _ hwf.1)]
      intro snap hs
      obtain ⟨r, hrf, rfl⟩ := List.mem_map.mp hs
      exact ⟨r, List.mem_of_mem_filter hrf, snapIdInt_model_to_dict r, rfl⟩

/-- C1 witness: the admin's `semester` UPDATE on the one-student world
executes and the subsequent rollback restores the table to `[srow1]`. -/
theorem c1_witness :
    (create_and_execute settingsWith50 worldOneStudent adminUser "nlp"
      semesterPayload).map
      (fun pr => (pr.2.status,
        (rollback_execution pr.1 adminUser
          ("exec_" ++ toString (worldOneStudent.nextId + 1))).2.status,
        (rollback_execution pr.1 adminUser
          ("exec_" ++ toString (worldOneStudent.nextId + 1))).1.db.tableOf "student")) =
      .ok ("executed", "rolled_back", [srow1]) := by
  obtain ⟨w1, res, heq, hst, heid, hbs, hrb1, hrb2, hrb3⟩ :=
    c1_update_rollback_restores settingsWith50 worldOneStudent adminUser "nlp"
      semesterPayload "student" "OK" "MEDIUM" (fun _ => true) [("semester", .vint 5)]
      (by decide) (by decide) (by decide) (by decide) (by decide) (by decide) rfl
      (by decide) (by decide) (by decide) (by decide) (by decide) (by decide)
  rw [heq]
  simp only [Except.map]
  rw [hst, hrb1, hrb2]
  rfl

/-- C1 counterexample to the unamended claim: an executed UPDATE whose
values also write the `id` column moves the primary key from 1 to 2, the
`before_state` snapshot records row id 1, and the rollback — although it
reports `rolled_back` — restores nothing: no current row carries id 1, and
the surviving row keeps the updated `semester` 5 instead of the snapshot's
3.  The touched row's fields do not return to their pre-update values. -/
theorem c1_counterexample_id_write :
    create_and_execute settingsWith50 worldOneStudent adminUser "nlp"
      idWritePayload = .ok (c1fail.1, c1fail.2) ∧
    c1fail.2.status = "executed" ∧
    strUpper idWritePayload.intent = "UPDATE" ∧
    c1fail.2.execution_id = some "exec_1" ∧
    c1fail.2.before_state = [model_to_dict srow1] ∧
    snapIdInt (model_to_dict srow1) = some 1 ∧
    lookupKey (model_to_dict srow1) "semester" = some (.vint 3) ∧
    (rollback_execution c1fail.1 adminUser "exec_1").2.status = "rolled_back" ∧
    (rollback_execution c1fail.1 adminUser "exec_1").1.db.tableOf "student" =
      [⟨2, [("user_id", .vint 10), ("roll_number", .vstr "R1"),
            ("department_id", .vint 1), ("semester", .vint 5),
            ("section", .vstr "A"), ("cgpa", .vfloat ⟨8, 0⟩),
            ("admission_year", .vint 2022)]⟩] := by
  decide

set_option synthInstance.maxSize 4096 in
/-- A value key naming a mapped relationship attribute (`user` passes
`FIELD_RULES` validation untouched and `hasattr`) makes the UPDATE value
loop raise, so the request ends `failed` with no mutation — the error path
behind the relationship proviso of the round-trip law. -/
theorem update_relationship_value_fails :
    (create_and_execute settingsWith50 worldOneStudent adminUser "nlp"
      ⟨"UPDATE", "student", [], [("user", .vint 5)], ["user"], ⟨9, 1⟩, none⟩).map
      (fun pr => (pr.2.status, pr.2.error, pr.1.db.tableOf "student")) =
    .ok ("failed", some "AttributeError: _sa_instance_state", [srow1]) := by
  decide

end CampusOps
